import Mathlib

/-!
Verification development for the oncology-genomics sample-data generator.

The repository consists of `generate_sample_data.py` (a combined pipeline that
generates patients, diagnoses, samples, sequencing runs, GATK variant-calling
jobs, variants, interpretations, therapy recommendations and follow-up records
and submits them to a remote HTTP API) and standalone per-stage scripts under
`scripts/` (notably `generate_patients.py`, `generate_samples.py`,
`generate_gatk_analysis.py`).

Embedding conventions:
* Dates are day numbers (`Int`): `datetime` values are identified with their
  day count, `timedelta(days = n)` with addition of `n`.  `daysFromCivil`
  converts a Gregorian calendar date to such a day number.
* Calls to `random.*` are modelled by oracle functions supplying one natural
  number per call site (indexed by the loop position where the source makes
  the call); a uniform draw from `n` alternatives uses the oracle value
  modulo `n`, so every outcome of the source program corresponds to some
  oracle and vice versa.  `random.uniform(a, b)` followed by `round(_, 2)`
  is modelled as a uniform draw of hundredths from `[100a, 100b]`, and
  similarly for other roundings; no claim depends on float rounding detail.
* `random.randrange(n)` raises `ValueError` for `n ≤ 0`, which aborts the
  whole Python run; fallible generators therefore return `Option`, `none`
  modelling that abort.
* Remote identifiers (`patientId`, `diagnosisId`, `sampleId`, ...) are
  assigned by the remote service; they are modelled as oracle-supplied
  values, and generator theorems quantify over arbitrary input records.
* Free-text fields produced by the Faker library (names, contact data,
  paragraph notes) carry no constraint relevant to any claim and are omitted
  from the records.
-/

namespace OncoGen

/-- Python's substring containment test `needle in hay` on strings, via prefix
checks at every position of the haystack character list. -/
def isPrefixChars : List Char → List Char → Bool
  | [], _ => true
  | _ :: _, [] => false
  | a :: as, b :: bs => a == b && isPrefixChars as bs

/-- Python string membership `needle in hay` (contiguous substring). -/
def strIn (needle hay : String) : Bool :=
  (List.range (hay.data.length + 1)).any fun i => isPrefixChars needle.data (hay.data.drop i)

/-- Python `random.choice(l)` for the always-nonempty literal tables of the
source: a uniform index draw `r % l.length`; the default `d` is never reached
on a nonempty list. -/
def choiceD (l : List α) (d : α) (r : Nat) : α :=
  (l.get? (r % l.length)).getD d

/-- Python `random.randint(a, b)` (both endpoints inclusive), as a uniform
draw from the `b - a + 1` alternatives. -/
def randint (a b r : Nat) : Nat := a + r % (b - a + 1)

/-- Python `random.sample(pop, k)`: `k` distinct draws without replacement,
modelled as repeated uniform choice with removal.  (The source only calls it
with `k` at most the population size; the empty-population branch mirrors the
`ValueError` the source would raise.) -/
def randomSample : List α → Nat → (Nat → Nat) → Nat → List α
  | _, 0, _, _ => []
  | pop, k + 1, r, i =>
    match pop.get? (r i % pop.length) with
    | none => []
    | some a => a :: randomSample (pop.eraseIdx (r i % pop.length)) k r (i + 1)

/-- Sequences a list of fallible computations, propagating the first `none`;
this models a Python loop in which an exception aborts the whole run. -/
def optionMapList (f : α → Option β) : List α → Option (List β)
  | [] => some []
  | a :: as =>
    match f a, optionMapList f as with
    | some b, some bs => some (b :: bs)
    | _, _ => none

/-- Day number of a Gregorian calendar date (valid from year 1 on); two dates
have day-number difference equal to the number of days between them, matching
`datetime` subtraction in the source. -/
def daysFromCivil (y m d : Nat) : Nat :=
  let y' := if m ≤ 2 then y - 1 else y
  let era := y' / 400
  let yoe := y' % 400
  let doy := (153 * (if 2 < m then m - 3 else m + 9) + 2) / 5 + d - 1
  let doe := yoe * 365 + yoe / 4 - yoe / 100 + doy
  era * 146097 + doe

/-- Static reference table entry for a cancer type (`CANCER_TYPES` in
`generate_sample_data.py`). -/
structure CancerType where
  name : String
  histologies : List String
  common_mutations : List String
deriving DecidableEq

/-- The `CANCER_TYPES` fact table of `generate_sample_data.py`. -/
def CANCER_TYPES : List CancerType :=
  [ { name := "Non-Small Cell Lung Cancer"
    , histologies := ["Adenocarcinoma", "Squamous Cell Carcinoma", "Large Cell Carcinoma"]
    , common_mutations := ["EGFR", "ALK", "ROS1", "KRAS", "BRAF", "MET", "RET", "NTRK"] }
  , { name := "Breast Cancer"
    , histologies := ["Invasive Ductal Carcinoma", "Invasive Lobular Carcinoma", "Triple Negative"]
    , common_mutations := ["BRCA1", "BRCA2", "PIK3CA", "TP53", "PTEN", "CDH1", "PALB2"] }
  , { name := "Colorectal Cancer"
    , histologies := ["Adenocarcinoma", "Mucinous Adenocarcinoma"]
    , common_mutations := ["APC", "KRAS", "BRAF", "PIK3CA", "TP53", "SMAD4", "PTEN"] }
  , { name := "Melanoma"
    , histologies := ["Superficial Spreading", "Nodular", "Lentigo Maligna", "Acral Lentiginous"]
    , common_mutations := ["BRAF", "NRAS", "NF1", "KIT", "PTEN", "CDKN2A"] }
  , { name := "Ovarian Cancer"
    , histologies := ["High-Grade Serous", "Low-Grade Serous", "Clear Cell", "Endometrioid"]
    , common_mutations := ["BRCA1", "BRCA2", "TP53", "PTEN", "PIK3CA", "ARID1A"] } ]

def T_STAGES : List String := ["T1a", "T1b", "T1c", "T2a", "T2b", "T3", "T4a", "T4b"]

def N_STAGES : List String := ["N0", "N1", "N2a", "N2b", "N3"]

def M_STAGES : List String := ["M0", "M1a", "M1b", "M1c"]

/-- The `SAMPLE_TYPES` table of `generate_sample_data.py`. -/
def SAMPLE_TYPES : List String :=
  ["Tumor Tissue", "Blood", "Bone Marrow", "Pleural Fluid", "Cerebrospinal Fluid"]

def SEQUENCING_PLATFORMS : List String :=
  [ "Illumina NovaSeq 6000", "Illumina NextSeq 550", "Illumina MiSeq"
  , "Ion Torrent S5", "PacBio Sequel II", "Oxford Nanopore PromethION" ]

def LIBRARY_PREPS : List String :=
  [ "TruSeq DNA PCR-Free", "Nextera DNA Flex", "SureSelect Human All Exon V7"
  , "Agilent SureSelect XT", "IDT xGen Exome Research Panel", "Swift Accel-NGS 2S Plus" ]

/-- Entry of the `DRUGS` table: a drug, its dosage and its target-gene field. -/
structure Drug where
  name : String
  dosage : String
  gene : String
deriving DecidableEq

def nsclcDrugs : List Drug :=
  [ ⟨"Osimertinib", "80mg daily", "EGFR"⟩
  , ⟨"Alectinib", "600mg twice daily", "ALK"⟩
  , ⟨"Entrectinib", "600mg daily", "ROS1"⟩
  , ⟨"Sotorasib", "960mg daily", "KRAS"⟩
  , ⟨"Dabrafenib + Trametinib", "150mg twice daily + 2mg daily", "BRAF"⟩ ]

def breastDrugs : List Drug :=
  [ ⟨"Olaparib", "300mg twice daily", "BRCA1/2"⟩
  , ⟨"Alpelisib + Fulvestrant", "300mg daily + 500mg monthly", "PIK3CA"⟩
  , ⟨"Trastuzumab", "6mg/kg every 3 weeks", "HER2"⟩
  , ⟨"Ribociclib + Letrozole", "600mg daily + 2.5mg daily", "ESR1"⟩ ]

def colorectalDrugs : List Drug :=
  [ ⟨"Cetuximab", "500mg/m2 every 2 weeks", "KRAS-wildtype"⟩
  , ⟨"Encorafenib + Cetuximab", "300mg daily + 500mg/m2 every 2 weeks", "BRAF"⟩
  , ⟨"Pembrolizumab", "200mg every 3 weeks", "MSI-H/dMMR"⟩ ]

def melanomaDrugs : List Drug :=
  [ ⟨"Dabrafenib + Trametinib", "150mg twice daily + 2mg daily", "BRAF"⟩
  , ⟨"Pembrolizumab", "200mg every 3 weeks", "PD-L1"⟩
  , ⟨"Nivolumab + Ipilimumab", "3mg/kg + 1mg/kg every 3 weeks", "PD-L1/CTLA-4"⟩ ]

def ovarianDrugs : List Drug :=
  [ ⟨"Olaparib", "300mg twice daily", "BRCA1/2"⟩
  , ⟨"Niraparib", "200-300mg daily", "HRD-positive"⟩
  , ⟨"Bevacizumab", "15mg/kg every 3 weeks", "VEGF"⟩ ]

/-- Lookup in the `DRUGS` dictionary: `DRUGS.get(cancer_type, [])`. -/
def DRUGS_get (cancerTypeName : String) : List Drug :=
  if cancerTypeName = "Non-Small Cell Lung Cancer" then nsclcDrugs
  else if cancerTypeName = "Breast Cancer" then breastDrugs
  else if cancerTypeName = "Colorectal Cancer" then colorectalDrugs
  else if cancerTypeName = "Melanoma" then melanomaDrugs
  else if cancerTypeName = "Ovarian Cancer" then ovarianDrugs
  else []

def EVIDENCE_LEVELS : List String :=
  ["Level 1A", "Level 1B", "Level 2A", "Level 2B", "Level 3A", "Level 3B", "Level 4"]

def ADVERSE_EVENTS : List String :=
  [ "Grade 1 fatigue", "Grade 2 nausea", "Grade 1 rash", "Grade 2 diarrhea"
  , "Grade 3 neutropenia", "Grade 1 peripheral neuropathy", "Grade 2 anemia"
  , "Grade 1 elevated liver enzymes", "Grade 2 thrombocytopenia", "Grade 1 hypothyroidism" ]

/-- An HTTP response as seen by a `call_api` function: a status code and,
when the body parses as JSON, the parsed payload (abstracted to a string);
`body = none` models an unparseable or empty body (for instance, the empty
body of a 204). -/
structure HttpResponse where
  status : Nat
  body : Option String
deriving DecidableEq

end OncoGen

namespace OncoGen.GenData

/-!
Embedding of `generate_sample_data.py` (the combined pipeline).
-/

/-- Function `generate_random_date(start_date, end_date)`: a uniform day in
`[start_date, end_date)`.  `random.randrange(days_between_dates)` raises
`ValueError` when the window is empty (`none` here), aborting the run. -/
def generate_random_date (startDate endDate : Int) (r : Nat) : Option Int :=
  if endDate - startDate ≤ 0 then none
  else some (startDate + ((r % (endDate - startDate).toNat : Nat) : Int))

/-- The date-of-birth computation of `generate_patients`: a uniform date
between 80 years and 30 years before `now`, with a year taken to be 365 days
(`timedelta(days = 80 * 365)` and `timedelta(days = 30 * 365)`). -/
def patient_dob (now : Int) (r : Nat) : Option Int :=
  generate_random_date (now - 80 * 365) (now - 30 * 365) r

/-- Patient record as used by the downstream stages (identifier assigned by
the remote service, demographics; Faker free text omitted). -/
structure PatientRec where
  patientId : Nat
  gender : String
  dateOfBirth : Int
deriving DecidableEq

/-- Oracles for the random draws of `generate_patients`, indexed by the loop
iteration. -/
structure PatientRng where
  gender : Nat → Nat
  dob : Nat → Nat
  pid : Nat → Nat

/-- Function `generate_patients(count)`: `count` patients, each with a gender
drawn from two alternatives and a date of birth via `patient_dob`. -/
def generate_patients (now : Int) (count : Nat) (o : PatientRng) : Option (List PatientRec) :=
  optionMapList
    (fun i => (patient_dob now (o.dob i)).map fun dob =>
      { patientId := o.pid i
      , gender := choiceD ["Male", "Female"] "Male" (o.gender i)
      , dateOfBirth := dob })
    (List.range count)

/-- Diagnosis record: the created diagnosis together with the cancer-type
table entry that `generate_diagnoses` attaches to the response
(`response["cancerType"] = cancer_type`). -/
structure DiagnosisRec where
  diagnosisId : Nat
  patientId : Nat
  cancerType : CancerType
  diagnosisDate : Int
  tStage : String
  nStage : String
  mStage : String
  histology : String
deriving DecidableEq

/-- Oracles for `generate_diagnoses`, indexed by patient position and
diagnosis position. -/
structure DiagRng where
  num : Nat → Nat
  cancer : Nat → Nat → Nat
  date : Nat → Nat → Nat
  t : Nat → Nat → Nat
  n : Nat → Nat → Nat
  m : Nat → Nat → Nat
  hist : Nat → Nat → Nat
  did : Nat → Nat → Nat

/-- The inner loop of `generate_diagnoses` for one patient: 1 or 2 diagnoses,
each with a cancer type drawn from `CANCER_TYPES`, a diagnosis date uniform in
the last two years (`now - 2 * 365` to `now`) and staging drawn from the
staging tables. -/
def diagnoses_for_patient (now : Int) (o : DiagRng) (i : Nat) (p : PatientRec) :
    Option (List DiagnosisRec) :=
  let numDiagnoses := randint 1 2 (o.num i)
  optionMapList
    (fun j =>
      let ct := choiceD CANCER_TYPES (CANCER_TYPES.get ⟨0, by decide⟩) (o.cancer i j)
      (generate_random_date (now - 2 * 365) now (o.date i j)).map fun dd =>
        { diagnosisId := o.did i j
        , patientId := p.patientId
        , cancerType := ct
        , diagnosisDate := dd
        , tStage := choiceD T_STAGES "T3" (o.t i j)
        , nStage := choiceD N_STAGES "N0" (o.n i j)
        , mStage := choiceD M_STAGES "M0" (o.m i j)
        , histology := choiceD ct.histologies "" (o.hist i j) })
    (List.range numDiagnoses)

/-- Function `generate_diagnoses(patients)`: for each patient, 1-2 diagnoses;
the per-patient lists are concatenated in order. -/
def generate_diagnoses (now : Int) (o : DiagRng) : Nat → List PatientRec → Option (List DiagnosisRec)
  | _, [] => some []
  | i, p :: ps =>
    match diagnoses_for_patient now o i p, generate_diagnoses now o (i + 1) ps with
    | some ds, some rest => some (ds ++ rest)
    | _, _ => none

/-- Sample record of the combined generator; `generate_samples` attaches the
parent diagnosis to the response (`response["diagnosis"] = diagnosis`), so the
record carries the parent's identifier and diagnosis date.  `tumorPurity100`
is the tumor purity in hundredths (`round(x, 2)` scaled by 100). -/
structure CSample where
  sampleId : Nat
  sampleType : String
  collectionDate : Int
  tumorPurity100 : Nat
  qualityScore10 : Nat
  diagnosisId : Nat
  diagnosisDate : Int
deriving DecidableEq

/-- Oracles for `generate_samples`, indexed by diagnosis position and sample
position. -/
structure SampleRng where
  num : Nat → Nat
  ty : Nat → Nat → Nat
  purity : Nat → Nat → Nat
  quality : Nat → Nat → Nat
  date : Nat → Nat → Nat
  sid : Nat → Nat → Nat

/-- One sample of `generate_samples`: the first sample (`i = 0`) is always
"Tumor Tissue" with purity `round(uniform(0.5, 0.95), 2)`; the second
(`i = 1`) is always "Blood" with purity `0.0`; later samples draw a type from
`SAMPLE_TYPES` and a purity `round(uniform(0.0, 0.95), 2)` unless the type is
"Blood".  The collection date is uniform in `[diagnosisDate, now)`. -/
def sample_at (now : Int) (o : SampleRng) (i j : Nat) (d : DiagnosisRec) : Option CSample :=
  let tyPurity : String × Nat :=
    if j = 0 then ("Tumor Tissue", 50 + o.purity i j % 46)
    else if j = 1 then ("Blood", 0)
    else
      let ty := choiceD SAMPLE_TYPES "Blood" (o.ty i j)
      (ty, if ty ≠ "Blood" then o.purity i j % 96 else 0)
  (generate_random_date d.diagnosisDate now (o.date i j)).map fun cd =>
    { sampleId := o.sid i j
    , sampleType := tyPurity.1
    , collectionDate := cd
    , tumorPurity100 := tyPurity.2
    , qualityScore10 := 50 + o.quality i j % 51
    , diagnosisId := d.diagnosisId
    , diagnosisDate := d.diagnosisDate }

/-- The inner loop of `generate_samples` for one diagnosis: 1-3 samples. -/
def samples_for_diagnosis (now : Int) (o : SampleRng) (i : Nat) (d : DiagnosisRec) :
    Option (List CSample) :=
  let numSamples := randint 1 3 (o.num i)
  optionMapList (fun j => sample_at now o i j d) (List.range numSamples)

/-- Function `generate_samples(diagnoses)` of the combined generator. -/
def generate_samples (now : Int) (o : SampleRng) : Nat → List DiagnosisRec → Option (List CSample)
  | _, [] => some []
  | i, d :: ds =>
    match samples_for_diagnosis now o i d, generate_samples now o (i + 1) ds with
    | some l, some rest => some (l ++ rest)
    | _, _ => none

/-- Sequencing-run record of `generate_sequencing_data`. -/
structure SeqRun where
  sampleId : Nat
  platform : String
  libraryPrep : String
  sequencingDate : Int
  readLength : Nat
  coverage : Nat
  fastqPath : String
deriving DecidableEq

/-- Oracles for `generate_sequencing_data`, indexed by the sample position. -/
structure SeqRng where
  plat : Nat → Nat
  lib : Nat → Nat
  date : Nat → Nat
  rl : Nat → Nat
  cov : Nat → Nat

/-- The `sample['sampleType'].lower().replace(' ', '_')` path fragment. -/
def fastq_name (s : String) : String :=
  String.mk (s.data.map fun c => if c = ' ' then '_' else c.toLower)

/-- One sequencing run: the date is uniform in `[collectionDate, now)`, and
tumor-tissue samples draw coverage from 80-150, others from 30-60. -/
def sequencing_for_sample (now : Int) (o : SeqRng) (i : Nat) (s : CSample) : Option SeqRun :=
  let coverage := if s.sampleType = "Tumor Tissue" then randint 80 150 (o.cov i)
    else randint 30 60 (o.cov i)
  (generate_random_date s.collectionDate now (o.date i)).map fun sd =>
    { sampleId := s.sampleId
    , platform := choiceD SEQUENCING_PLATFORMS "" (o.plat i)
    , libraryPrep := choiceD LIBRARY_PREPS "" (o.lib i)
    , sequencingDate := sd
    , readLength := choiceD [75, 100, 150, 250] 100 (o.rl i)
    , coverage := coverage
    , fastqPath := "/data/fastq/sample" ++ toString s.sampleId ++ "_" ++ fastq_name s.sampleType }

/-- Function `generate_sequencing_data(samples)`. -/
def generate_sequencing_data (now : Int) (o : SeqRng) : Nat → List CSample → Option (List SeqRun)
  | _, [] => some []
  | i, s :: ss =>
    match sequencing_for_sample now o i s, generate_sequencing_data now o (i + 1) ss with
    | some r, some rest => some (r :: rest)
    | _, _ => none

/-- GATK job of the combined generator: the payload references the tumor and
normal sample identifiers; the generator attaches both sample records to the
response, carried here. -/
structure GatkJob where
  tumorSample : CSample
  normalSample : CSample
  caller : String
  filterSettings : String
deriving DecidableEq

/-- Oracles for the parameter draws of `generate_gatk_jobs`, indexed by the
tumor sample's identifier. -/
structure GatkRng where
  caller : Nat → Nat
  fs : Nat → Nat

/-- Worker for `first_occurrence_keys`: keep a key when it has not been seen
before. -/
def first_occurrence_go [DecidableEq α] (seen : List α) : List α → List α
  | [] => []
  | x :: xs =>
    if x ∈ seen then first_occurrence_go seen xs
    else x :: first_occurrence_go (x :: seen) xs

/-- Keys of a Python dict built by insertion: each key listed once, in order
of first occurrence. -/
def first_occurrence_keys [DecidableEq α] (l : List α) : List α :=
  first_occurrence_go [] l

/-- The body of `generate_gatk_jobs` for one diagnosis group: with at least
one tumor ("Tumor Tissue") and one normal ("Blood") sample in the group, one
job per tumor sample, always paired with the group's first normal sample
(`normal_samples[0]`); otherwise no job at all. -/
def gatk_jobs_for_diagnosis (samples : List CSample) (o : GatkRng) (dId : Nat) : List GatkJob :=
  let diagnosisSamples := samples.filter fun s => s.diagnosisId == dId
  let tumorSamples := diagnosisSamples.filter fun s => s.sampleType == "Tumor Tissue"
  let normalSamples := diagnosisSamples.filter fun s => s.sampleType == "Blood"
  match normalSamples with
  | [] => []
  | n0 :: _ =>
    tumorSamples.map fun t =>
      { tumorSample := t
      , normalSample := n0
      , caller := choiceD ["Mutect2", "Strelka2", "Varscan2"] "Mutect2" (o.caller t.sampleId)
      , filterSettings := choiceD ["default", "strict", "lenient"] "default" (o.fs t.sampleId) }

/-- Function `generate_gatk_jobs(samples)` of the combined generator: samples
are grouped by their parent diagnosis identifier, and each group contributes
its tumor-normal pair jobs. -/
def generate_gatk_jobs (samples : List CSample) (o : GatkRng) : List GatkJob :=
  List.flatten ((first_occurrence_keys (samples.map (·.diagnosisId))).map
    (gatk_jobs_for_diagnosis samples o))

/-- Variant record: the mock variant payload, together with the parent
diagnosis data the generator attaches (`response["diagnosis"] = diagnosis`).
`alleleFrequency1000` is the allele frequency in thousandths. -/
structure VariantRec where
  variantId : Nat
  geneSymbol : String
  chromosome : String
  position : Nat
  referenceAllele : String
  alternateAllele : String
  variantType : String
  alleleFrequency1000 : Nat
  readDepth : Nat
  filterStatus : String
  patientId : Nat
  diagnosisId : Nat
  cancerType : CancerType
deriving DecidableEq

/-- Oracles for `generate_variants`, indexed by diagnosis position and variant
position. -/
structure VariantRng where
  num : Nat → Nat
  gene : Nat → Nat → Nat
  chrom : Nat → Nat → Nat
  pos : Nat → Nat → Nat
  ref : Nat → Nat → Nat
  alt : Nat → Nat → Nat
  vty : Nat → Nat → Nat
  af : Nat → Nat → Nat
  rd : Nat → Nat → Nat
  fs : Nat → Nat → Nat
  vid : Nat → Nat → Nat

def CHROMOSOMES : List String :=
  [ "1", "2", "3", "4", "5", "6", "7", "8", "9", "10", "11", "12"
  , "13", "14", "15", "16", "17", "18", "19", "20", "21", "22", "X", "Y" ]

def BASES : List String := ["A", "C", "G", "T"]

/-- The inner loop of `generate_variants` for one diagnosis: 2-5 variants,
each on a gene drawn from the cancer type's `common_mutations`, with an
alternate allele drawn from the bases other than the reference allele. -/
def variants_for_diagnosis (o : VariantRng) (i : Nat) (d : DiagnosisRec) : List VariantRec :=
  let n := randint 2 5 (o.num i)
  (List.range n).map fun j =>
    let gene := choiceD d.cancerType.common_mutations "" (o.gene i j)
    let ref := choiceD BASES "A" (o.ref i j)
    let alt := choiceD (BASES.filter fun b => b != ref) "A" (o.alt i j)
    { variantId := o.vid i j
    , geneSymbol := gene
    , chromosome := choiceD CHROMOSOMES "1" (o.chrom i j)
    , position := randint 1000000 100000000 (o.pos i j)
    , referenceAllele := ref
    , alternateAllele := alt
    , variantType := choiceD ["SNV", "Insertion", "Deletion", "CNV"] "SNV" (o.vty i j)
    , alleleFrequency1000 := 50 + o.af i j % 451
    , readDepth := randint 50 500 (o.rd i j)
    , filterStatus := choiceD ["PASS", "LowQual", "PASS", "PASS"] "PASS" (o.fs i j)
    , patientId := d.patientId
    , diagnosisId := d.diagnosisId
    , cancerType := d.cancerType }

/-- Function `generate_variants(diagnoses)`. -/
def generate_variants (o : VariantRng) : Nat → List DiagnosisRec → List VariantRec
  | _, [] => []
  | i, d :: ds => variants_for_diagnosis o i d ++ generate_variants o (i + 1) ds

/-- Clinical-interpretation record. -/
structure InterpretationRec where
  variantId : Nat
  clinicalSignificance : String
  evidenceLevel : String
  interpretation : String
  references : String
deriving DecidableEq

def SIGNIFICANCES : List String :=
  [ "Pathogenic", "Likely Pathogenic", "Variant of Unknown Significance"
  , "Likely Benign", "Benign" ]

def PATHOGENIC_TEMPLATES : List String :=
  [ "Associated with increased tumor growth and proliferation."
  , "May confer resistance to standard therapies."
  , "Associated with response to targeted therapies."
  , "Indicates potential sensitivity to immunotherapy."
  , "Associated with poor prognosis." ]

def UNCERTAIN_TEMPLATES : List String :=
  [ "Clinical significance is currently uncertain."
  , "Insufficient evidence to determine clinical impact."
  , "Likely represents a benign polymorphism."
  , "Not previously reported in this cancer type." ]

/-- Oracles for `generate_clinical_interpretations`, indexed by the variant
position. -/
structure InterpRng where
  sig : Nat → Nat
  sigDriver : Nat → Nat
  level : Nat → Nat
  text : Nat → Nat
  ref1 : Nat → Nat
  ref2 : Nat → Nat

/-- One clinical interpretation: the significance is first drawn from all
five categories and then redrawn from a pathogenic-biased list when the gene
is in the cancer type's `common_mutations`; the narrative text is a template
selected by the significance. -/
def interpretation_for_variant (o : InterpRng) (i : Nat) (v : VariantRec) : InterpretationRec :=
  let significance0 := choiceD SIGNIFICANCES "Benign" (o.sig i)
  let significance :=
    if v.cancerType.common_mutations.contains v.geneSymbol then
      choiceD ["Pathogenic", "Likely Pathogenic", "Pathogenic"] "Pathogenic" (o.sigDriver i)
    else significance0
  let base := v.geneSymbol ++ " variant in " ++ v.cancerType.name ++ ". "
  { variantId := v.variantId
  , clinicalSignificance := significance
  , evidenceLevel := choiceD EVIDENCE_LEVELS "" (o.level i)
  , interpretation :=
      if significance = "Pathogenic" ∨ significance = "Likely Pathogenic" then
        base ++ choiceD PATHOGENIC_TEMPLATES "" (o.text i)
      else base ++ choiceD UNCERTAIN_TEMPLATES "" (o.text i)
  , references :=
      "PMID:" ++ toString (randint 10000000 30000000 (o.ref1 i)) ++ ", PMID:" ++
        toString (randint 10000000 30000000 (o.ref2 i)) }

/-- Function `generate_clinical_interpretations(variants)`. -/
def generate_clinical_interpretations (o : InterpRng) : Nat → List VariantRec → List InterpretationRec
  | _, [] => []
  | i, v :: vs => interpretation_for_variant o i v :: generate_clinical_interpretations o (i + 1) vs

/-- Therapy-recommendation record: the payload's `variantIds` list is
`linkedVariants.map (fun v => v.variantId)`; the variant records themselves
are kept so that their genes can be inspected.  `isFallback` marks a
recommendation produced by the no-match fallback
(`if not matching_drugs and potential_drugs`). -/
structure TherapyRec where
  patientId : Nat
  diagnosisId : Nat
  drug : Drug
  recommendationDate : Int
  evidenceLevel : String
  linkedVariants : List VariantRec
  isFallback : Bool
deriving DecidableEq

/-- Oracles for `generate_therapy_recommendations`, indexed by the
patient-diagnosis group key and the drug position. -/
structure TherapyRng where
  fallback : Nat × Nat → Nat
  date : Nat × Nat → Nat → Nat
  level : Nat × Nat → Nat → Nat

/-- Grouping key of `generate_therapy_recommendations`: the source keys its
dict by the string `f"{patient_id}_{diagnosis_id}"` and parses it back with
`split`/`int`, which for integer identifiers is the pair of identifiers. -/
def variant_key (v : VariantRec) : Nat × Nat := (v.patientId, v.diagnosisId)

/-- The drug-matching scan: for each variant of the group in order, every
drug of the cancer type's table whose target-gene field contains the
variant's gene symbol as a substring (`if gene in drug["gene"]`). -/
def matching_drugs (group : List VariantRec) (potentialDrugs : List Drug) : List Drug :=
  List.flatten (group.map fun v => potentialDrugs.filter fun drug => strIn v.geneSymbol drug.gene)

/-- The recommendation-creation loop over the chosen drug list: one
recommendation per drug, dated uniformly in `[diagnosisDate, now)`, linking
exactly the group's variants whose gene symbol occurs in the drug's
target-gene field. -/
def recs_from_drugs (now : Int) (o : TherapyRng) (k : Nat × Nat) (diagnosis : DiagnosisRec)
    (patientVariants : List VariantRec) (isFb : Bool) :
    Nat → List Drug → Option (List TherapyRec)
  | _, [] => some []
  | j, drug :: rest =>
    match generate_random_date diagnosis.diagnosisDate now (o.date k j),
        recs_from_drugs now o k diagnosis patientVariants isFb (j + 1) rest with
    | some rd, some tail =>
      some ({ patientId := k.1
            , diagnosisId := k.2
            , drug := drug
            , recommendationDate := rd
            , evidenceLevel := choiceD EVIDENCE_LEVELS "" (o.level k j)
            , linkedVariants := patientVariants.filter fun v => strIn v.geneSymbol drug.gene
            , isFallback := isFb } :: tail)
    | _, _ => none

/-- The body of `generate_therapy_recommendations` for one patient-diagnosis
group: find the diagnosis (`next(...)`, skipping the group if absent), look
up the cancer type's drugs (skipping if empty), collect the matching drugs,
and fall back to one uniformly drawn drug when no variant matched any. -/
def recs_for_group (diagnoses : List DiagnosisRec) (now : Int) (o : TherapyRng)
    (variants : List VariantRec) (k : Nat × Nat) : Option (List TherapyRec) :=
  let patientVariants := variants.filter fun v => decide (variant_key v = k)
  match diagnoses.find? (fun d => d.diagnosisId == k.2) with
  | none => some []
  | some diagnosis =>
    let potentialDrugs := DRUGS_get diagnosis.cancerType.name
    if potentialDrugs.isEmpty then some []
    else
      let matched := matching_drugs patientVariants potentialDrugs
      let chosen := if matched.isEmpty then
          [choiceD potentialDrugs ⟨"", "", ""⟩ (o.fallback k)]
        else matched
      recs_from_drugs now o k diagnosis patientVariants matched.isEmpty 0 chosen

/-- Function `generate_therapy_recommendations(patients, diagnoses, variants)`
(the `patients` argument is unused by the source): variants are grouped by
patient and diagnosis identifier and each group yields its recommendations. -/
def generate_therapy_recommendations (diagnoses : List DiagnosisRec) (now : Int)
    (o : TherapyRng) (variants : List VariantRec) : Option (List TherapyRec) :=
  (optionMapList (recs_for_group diagnoses now o variants)
    (first_occurrence_keys (variants.map variant_key))).map List.flatten

/-- Follow-up record. -/
structure FollowupRec where
  patientId : Nat
  followUpDate : Int
  clinicalStatus : String
  imagingResults : String
  adverseEvents : String
  nextFollowUpDate : Int
deriving DecidableEq

/-- Oracles for `generate_followups`, indexed by the patient identifier and
the record position. -/
structure FollowupRng where
  num : Nat → Nat
  firstOffset : Nat → Nat
  inc : Nat → Nat → Nat
  status : Nat → Nat → Nat
  imgPct : Nat → Nat → Nat
  imgSite : Nat → Nat → Nat
  numAe : Nat → Nat → Nat
  ae : Nat → Nat → Nat → Nat
  next : Nat → Nat → Nat

/-- The follow-up date loop: starting from the anchor, append the current
date while it is before `now`, advancing by `randint(60, 120)` days each
iteration, and stop at the first date not before `now` (`break`). -/
def build_followup_dates (now : Int) (inc : Nat → Nat) : Nat → Nat → Int → List Int
  | 0, _, _ => []
  | fuel + 1, idx, current =>
    if current < now then
      current :: build_followup_dates now inc fuel (idx + 1)
        (current + (randint 60 120 (inc idx) : Nat))
    else []

/-- Clinical status of the `i`-th of `total` follow-ups: the first is drawn
from improving-or-stable statuses, the last from the full range including
progression, interior ones from response-favoring statuses. -/
def status_at (o : FollowupRng) (pid i total : Nat) : String :=
  if i = 0 then choiceD ["Partial Response", "Stable Disease"] "" (o.status pid i)
  else if i = total - 1 then
    choiceD ["Partial Response", "Stable Disease", "Progressive Disease"] "" (o.status pid i)
  else choiceD ["Partial Response", "Complete Response", "Stable Disease"] "" (o.status pid i)

/-- Imaging narrative deterministically selected by the clinical status. -/
def imaging_for_status (o : FollowupRng) (pid i : Nat) (s : String) : String :=
  if s = "Complete Response" then "No evidence of disease on imaging."
  else if s = "Partial Response" then
    toString (randint 30 70 (o.imgPct pid i)) ++ "% reduction in tumor size compared to baseline."
  else if s = "Stable Disease" then
    "No significant change in tumor measurements since last assessment."
  else if s = "Progressive Disease" then
    toString (randint 20 50 (o.imgPct pid i)) ++ "% increase in tumor size. New lesions detected in "
      ++ choiceD ["liver", "lung", "bone", "brain"] "" (o.imgSite pid i) ++ "."
  else "Imaging studies inconclusive."

/-- Adverse events: a sample of 0-3 entries of `ADVERSE_EVENTS`, joined with
", ", or "None" when empty. -/
def adverse_events_at (o : FollowupRng) (pid i : Nat) : String :=
  let l := randomSample ADVERSE_EVENTS (o.numAe pid i % 4) (o.ae pid i) 0
  if l.isEmpty then "None" else String.intercalate ", " l

/-- The record-creation loop over the follow-up dates: the `i`-th record is
dated at the `i`-th follow-up date and its next-follow-up date is an
independent `randint(60, 120)` days after its own date. -/
def followup_records (o : FollowupRng) (pid total : Nat) : Nat → List Int → List FollowupRec
  | _, [] => []
  | i, d :: ds =>
    let s := status_at o pid i total
    { patientId := pid
    , followUpDate := d
    , clinicalStatus := s
    , imagingResults := imaging_for_status o pid i s
    , adverseEvents := adverse_events_at o pid i
    , nextFollowUpDate := d + (randint 60 120 (o.next pid i) : Nat) }
      :: followup_records o pid total (i + 1) ds

/-- Minimum recommendation date of a group: the source sorts the group by
date and takes `sorted_recommendations[0]["recommendationDate"]`, which is
the minimum of the group's dates. -/
def earliest_rec_date : List TherapyRec → Int → Int
  | [], acc => acc
  | r :: rs, acc => earliest_rec_date rs (min acc r.recommendationDate)

/-- The body of `generate_followups` for one patient: 1-3 follow-ups,
anchored `randint(30, 60)` days after the earliest recommendation date. -/
def followups_for_patient (now : Int) (o : FollowupRng) (recs : List TherapyRec)
    (pid : Nat) : List FollowupRec :=
  match recs.filter fun r => decide (r.patientId = pid) with
  | [] => []
  | r0 :: rs =>
    let num := randint 1 3 (o.num pid)
    let earliest := earliest_rec_date rs r0.recommendationDate
    let dates := build_followup_dates now (o.inc pid) num 0
      (earliest + (randint 30 60 (o.firstOffset pid) : Nat))
    followup_records o pid dates.length 0 dates

/-- Function `generate_followups(patients, recommendations)` (the `patients`
argument is unused by the source): recommendations are grouped by patient
identifier and each patient yields its follow-up records. -/
def generate_followups (recs : List TherapyRec) (now : Int) (o : FollowupRng) : List FollowupRec :=
  List.flatten ((first_occurrence_keys (recs.map (·.patientId))).map
    (followups_for_patient now o recs))

/-- Function `wait_for_application()`: up to `max_retries = 30` probes of the
health endpoint; ready as soon as one returns status 200; a raised
`RequestException` (`none`) counts as a failed probe. -/
def wait_for_application (health : Nat → Option Nat) : Bool :=
  (List.range 30).any fun i =>
    match health i with
    | some s => s == 200
    | none => false

/-- The per-stage collections accumulated by `main()`. -/
structure Summary where
  patients : List PatientRec
  diagnoses : List DiagnosisRec
  samples : List CSample
  sequencingData : List SeqRun
  gatkJobs : List GatkJob
  variants : List VariantRec
  interpretations : List InterpretationRec
  recommendations : List TherapyRec
  followups : List FollowupRec

/-- All random oracles of one pipeline run. -/
structure Oracles where
  patient : PatientRng
  diag : DiagRng
  sample : SampleRng
  seqr : SeqRng
  gatk : GatkRng
  variant : VariantRng
  interp : InterpRng
  therapy : TherapyRng
  followup : FollowupRng

/-- The generation phase of `main()`: the nine stages in dependency order;
`none` models an uncaught exception aborting the process. -/
def run_pipeline (now : Int) (count : Nat) (o : Oracles) : Option Summary := do
  let patients ← generate_patients now count o.patient
  let diagnoses ← generate_diagnoses now o.diag 0 patients
  let samples ← generate_samples now o.sample 0 diagnoses
  let sequencingData ← generate_sequencing_data now o.seqr 0 samples
  let gatkJobs := generate_gatk_jobs samples o.gatk
  let variants := generate_variants o.variant 0 diagnoses
  let interpretations := generate_clinical_interpretations o.interp 0 variants
  let recommendations ← generate_therapy_recommendations diagnoses now o.therapy variants
  let followups := generate_followups recommendations now o.followup
  some { patients := patients
       , diagnoses := diagnoses
       , samples := samples
       , sequencingData := sequencingData
       , gatkJobs := gatkJobs
       , variants := variants
       , interpretations := interpretations
       , recommendations := recommendations
       , followups := followups }

/-- Outcome of `main()`. -/
inductive RunOutcome
  | serviceUnavailable
  | crashed
  | completed (s : Summary)

/-- Function `main()`: when `wait_for_application()` fails, it returns before
any generation stage runs, so no entity of any stage is ever submitted. -/
def main_run (health : Nat → Option Nat) (now : Int) (count : Nat) (o : Oracles) : RunOutcome :=
  if wait_for_application health then
    match run_pipeline now count o with
    | some s => .completed s
    | none => .crashed
  else .serviceUnavailable

/-- The combined generator's `call_api` (one `requests` call, no retry):
`raise_for_status()` raises on a status of 400 or above, caught and mapped to
`None`; a 204 returns `None` explicitly; otherwise `response.json()` is
returned, with a parse failure raising a caught exception (`None`); a network
failure (response `none`) is likewise `None`.  Callers treat `None` as an
item-level failure and skip the entity. -/
def call_api (resp : Option HttpResponse) : Option String :=
  match resp with
  | none => none
  | some r =>
    if 400 ≤ r.status then none
    else if r.status = 204 then none
    else r.body

end OncoGen.GenData

namespace OncoGen

/-- Result classification of the scripts' `call_api`: a parsed 2xx body, the
`{"success": True}` marker for a 2xx response whose body does not parse, or
an item-level failure (non-2xx status or network error). -/
inductive ApiOutcome
  | parsed (p : String)
  | bareSuccess
  | failure
deriving DecidableEq

end OncoGen

namespace OncoGen.Scripts

/-!
Embedding of the standalone stage scripts `scripts/generate_patients.py`,
`scripts/generate_samples.py` and `scripts/generate_gatk_analysis.py`.
Submission lists model the sequence of POSTed entities; the per-item
`try`/`except` of these scripts means an item failure only skips that item.
-/

/-- The scripts' `call_api` (identical in the three scripts; one `requests`
call, no retry): a 2xx response is parsed, a 2xx response with an unparseable
body becomes the bare-success marker, anything else (including a raised
exception, response `none`) is an item-level failure returning `None`. -/
def call_api (resp : Option HttpResponse) : ApiOutcome :=
  match resp with
  | none => .failure
  | some r =>
    if 200 ≤ r.status ∧ r.status < 300 then
      match r.body with
      | some p => .parsed p
      | none => .bareSuccess
    else .failure

/-- The date-of-birth computation of `scripts/generate_patients.py`:
`datetime.now() - timedelta(days = 365 * random.randint(30, 80))`. -/
def patient_dob (now : Int) (r : Nat) : Int :=
  now - ((365 * randint 30 80 r : Nat) : Int)

/-- The submission loop of `generate_patients(count)` in
`scripts/generate_patients.py`: each iteration makes one call; a non-failure
response is appended to the patients list, a failure increments the error
count, and the loop proceeds with the next candidate either way. -/
def patients_loop (responses : Nat → Option HttpResponse) : Nat → Nat → List ApiOutcome × Nat
  | _, 0 => ([], 0)
  | i, n + 1 =>
    let rest := patients_loop responses (i + 1) n
    match call_api (responses i) with
    | .failure => (rest.1, rest.2 + 1)
    | r => (r :: rest.1, rest.2)

/-- Function `generate_patients(count)` of `scripts/generate_patients.py`,
returning the collected patients and the error count. -/
def generate_patients (count : Nat) (responses : Nat → Option HttpResponse) :
    List ApiOutcome × Nat :=
  patients_loop responses 0 count

/-- The `SAMPLE_TYPES` table of `scripts/generate_samples.py`. -/
def SAMPLE_TYPES : List String := ["Tumor", "Normal", "Metastasis", "Recurrence"]

def TISSUE_TYPES : List String :=
  ["FFPE", "Fresh Frozen", "Blood", "Bone Marrow", "Fine Needle Aspirate"]

def SAMPLE_SITES : List String := ["Primary", "Metastatic", "Lymph Node", "Circulating"]

/-- Parent diagnosis as consumed by `scripts/generate_samples.py` (loaded
from the diagnoses checkpoint). -/
structure SDiagnosis where
  diagnosisId : Nat
  diagnosisDate : Int
deriving DecidableEq

/-- Sample record of the scripts pipeline.  `diagnosisId` is optional because
`scripts/generate_gatk_analysis.py` reads it from the checkpoint file with
`s.get("diagnosis", {}).get("diagnosisId")`, which yields `None` when absent;
the sample generator itself always fills it in.  `tumorPurity` is
`randint(60, 95)` for tumor-bearing types and Python `None` otherwise. -/
structure SSample where
  sampleId : Nat
  diagnosisId : Option Nat
  sampleType : String
  collectionDate : Int
  tissueType : String
  sampleSite : String
  tumorPurity : Option Nat
deriving DecidableEq

/-- Oracles for the scripts' `generate_samples`, indexed by diagnosis
position and sample position. -/
structure SSampleRng where
  num : Nat → Nat
  sel : Nat → Nat → Nat
  date : Nat → Nat → Nat
  tissue : Nat → Nat → Nat
  site : Nat → Nat → Nat
  purity : Nat → Nat → Nat
  sid : Nat → Nat → Nat

/-- Sample types of one diagnosis: always one "Tumor" first, then
`random.sample(SAMPLE_TYPES[1:], num_samples - 1)` further distinct types
drawn from `["Normal", "Metastasis", "Recurrence"]`. -/
def sample_types_for (o : SSampleRng) (i : Nat) : List String :=
  let numSamples := randint 1 3 (o.num i)
  "Tumor" :: randomSample (SAMPLE_TYPES.drop 1) (numSamples - 1) (o.sel i) 0

/-- One sample payload of the scripts' `generate_samples`: tissue type and
sample site are selected by branches on the sample type, the collection date
is `diagnosisDate + randint(0, 30)` days, and tumor purity is
`randint(60, 95)` exactly for the tumor-bearing types
"Tumor"/"Metastasis"/"Recurrence" (`None` otherwise). -/
def sample_payload (o : SSampleRng) (i j : Nat) (d : SDiagnosis) (ty : String) : SSample :=
  let tissueType :=
    if ty = "Tumor" ∨ ty = "Metastasis" ∨ ty = "Recurrence" then
      choiceD (TISSUE_TYPES.take 2) "" (o.tissue i j)
    else if ty = "Normal" then choiceD (TISSUE_TYPES.drop 2) "" (o.tissue i j)
    else choiceD TISSUE_TYPES "" (o.tissue i j)
  let sampleSite :=
    if ty = "Tumor" then "Primary"
    else if ty = "Metastasis" then "Metastatic"
    else if ty = "Normal" then choiceD ["Blood", "Bone Marrow"] "" (o.site i j)
    else choiceD SAMPLE_SITES "" (o.site i j)
  { sampleId := o.sid i j
  , diagnosisId := some d.diagnosisId
  , sampleType := ty
  , collectionDate := d.diagnosisDate + ((randint 0 30 (o.date i j) : Nat) : Int)
  , tissueType := tissueType
  , sampleSite := sampleSite
  , tumorPurity :=
      if ty = "Tumor" ∨ ty = "Metastasis" ∨ ty = "Recurrence" then
        some (randint 60 95 (o.purity i j))
      else none }

/-- The inner loop over the (enumerated) sample types of one diagnosis. -/
def samples_from_types (o : SSampleRng) (i : Nat) (d : SDiagnosis) :
    Nat → List String → List SSample
  | _, [] => []
  | j, ty :: tys => sample_payload o i j d ty :: samples_from_types o i d (j + 1) tys

/-- The body of the scripts' `generate_samples` for one diagnosis. -/
def samples_for_diagnosis (o : SSampleRng) (i : Nat) (d : SDiagnosis) : List SSample :=
  samples_from_types o i d 0 (sample_types_for o i)

/-- Function `generate_samples(diagnoses)` of `scripts/generate_samples.py`. -/
def generate_samples (o : SSampleRng) : Nat → List SDiagnosis → List SSample
  | _, [] => []
  | i, d :: ds => samples_for_diagnosis o i d ++ generate_samples o (i + 1) ds

def PIPELINE_VERSIONS : List String := ["4.2.0.0", "4.1.9.0", "4.1.8.1", "4.1.7.0"]

def CALLING_METHODS : List String := ["Mutect2", "HaplotypeCaller", "Strelka2", "Varscan2"]

/-- The tumor-type filter of `scripts/generate_gatk_analysis.py`:
`s.get("sampleType") in ["Tumor", "Metastasis", "Recurrence"]`. -/
def TUMOR_SAMPLE_TYPES : List String := ["Tumor", "Metastasis", "Recurrence"]

/-- Function `find_normal_sample(samples, tumor_sample)`: a uniformly random
choice among the samples of type "Normal" sharing the tumor sample's parent
diagnosis identifier; `None` when no such sample exists.  Python's truthiness
test `if not diagnosis_id` treats both a missing and a zero identifier as
absent. -/
def find_normal_sample (samples : List SSample) (tumor : SSample) (r : Nat) : Option SSample :=
  match tumor.diagnosisId with
  | none => none
  | some d =>
    if d = 0 then none
    else
      let normalSamples := samples.filter fun s =>
        s.sampleType == "Normal" && s.diagnosisId == some d
      if h : normalSamples.length = 0 then none
      else some (normalSamples.get
        ⟨r % normalSamples.length, Nat.mod_lt _ (Nat.pos_of_ne_zero h)⟩)

/-- GATK job of `scripts/generate_gatk_analysis.py`: the payload references
the tumor sample and, when found, the normal sample. -/
structure SGatkJob where
  tumorSample : SSample
  normalSample : Option SSample
  pipelineVersion : String
  callingMethod : String
deriving DecidableEq

/-- Oracles for the scripts' `generate_gatk_jobs`, indexed by the tumor
sample position. -/
structure SGatkRng where
  choice : Nat → Nat
  pv : Nat → Nat
  cm : Nat → Nat

/-- The submission loop of the scripts' `generate_gatk_jobs`: one job per
tumor sample, never skipped; the normal sample is attached exactly when
`find_normal_sample` yields one. -/
def gatk_jobs_loop (samples : List SSample) (o : SGatkRng) : Nat → List SSample → List SGatkJob
  | _, [] => []
  | i, t :: ts =>
    { tumorSample := t
    , normalSample := find_normal_sample samples t (o.choice i)
    , pipelineVersion := choiceD PIPELINE_VERSIONS "" (o.pv i)
    , callingMethod := choiceD CALLING_METHODS "" (o.cm i) }
      :: gatk_jobs_loop samples o (i + 1) ts

/-- Function `generate_gatk_jobs(samples)` of
`scripts/generate_gatk_analysis.py`: every sample whose type is in
`TUMOR_SAMPLE_TYPES` is submitted as a variant-calling job, tumor-only when
no matching normal sample exists. -/
def generate_gatk_jobs (samples : List SSample) (o : SGatkRng) : List SGatkJob :=
  gatk_jobs_loop samples o 0 (samples.filter fun s => TUMOR_SAMPLE_TYPES.contains s.sampleType)

/-- The scripts' `wait_for_application()`: up to `max_retries = 10` probes;
ready on the first status-200 response; exceptions count as failed probes. -/
def wait_for_application (health : Nat → Option Nat) : Bool :=
  (List.range 10).any fun i =>
    match health i with
    | some s => s == 200
    | none => false

/-- Function `main()` of `scripts/generate_patients.py`: when the readiness
probe never succeeds, the script returns exit code 1 (`none`) before
generating or submitting any patient. -/
def patients_main (health : Nat → Option Nat) (count : Nat)
    (responses : Nat → Option HttpResponse) : Option (List ApiOutcome × Nat) :=
  if wait_for_application health then some (generate_patients count responses) else none

end OncoGen.Scripts

namespace OncoGen

/-!
General lemmas about the random-draw and iteration helpers.
-/

theorem randint_le (a b r : Nat) : a ≤ randint a b r :=
  Nat.le_add_right a _

theorem randint_ge (a b r : Nat) (h : a ≤ b) : randint a b r ≤ b := by
  unfold randint
  have := Nat.mod_lt r (y := b - a + 1) (by omega)
  omega

theorem optionMapList_mem {f : α → Option β} :
    ∀ {l : List α} {bs : List β}, optionMapList f l = some bs →
      ∀ b ∈ bs, ∃ a ∈ l, f a = some b := by
  intro l
  induction l with
  | nil =>
    intro bs h b hb
    simp only [optionMapList, Option.some.injEq] at h
    subst h
    simp at hb
  | cons a as ih =>
    intro bs h b hb
    cases hfa : f a with
    | none => simp [optionMapList, hfa] at h
    | some b0 =>
      cases hrest : optionMapList f as with
      | none => simp [optionMapList, hfa, hrest] at h
      | some bs0 =>
        simp only [optionMapList, hfa, hrest, Option.some.injEq] at h
        subst h
        cases hb with
        | head => exact ⟨a, List.mem_cons_self a as, hfa⟩
        | tail _ hb =>
          obtain ⟨a', ha', hfa'⟩ := ih hrest b hb
          exact ⟨a', List.mem_cons_of_mem a ha', hfa'⟩

theorem optionMapList_length_get {f : α → Option β} :
    ∀ {l : List α} {bs : List β}, optionMapList f l = some bs →
      l.length = bs.length ∧
        ∀ i (h1 : i < l.length) (h2 : i < bs.length),
          f (l.get ⟨i, h1⟩) = some (bs.get ⟨i, h2⟩) := by
  intro l
  induction l with
  | nil =>
    intro bs h
    simp only [optionMapList, Option.some.injEq] at h
    subst h
    exact ⟨rfl, by intro i h1 _; simp at h1⟩
  | cons a as ih =>
    intro bs h
    cases hfa : f a with
    | none => simp [optionMapList, hfa] at h
    | some b0 =>
      cases hrest : optionMapList f as with
      | none => simp [optionMapList, hfa, hrest] at h
      | some bs0 =>
        simp only [optionMapList, hfa, hrest, Option.some.injEq] at h
        subst h
        obtain ⟨hlen, hget⟩ := ih hrest
        refine ⟨by simp [hlen], ?_⟩
        intro i h1 h2
        cases i with
        | zero => simpa using hfa
        | succ i =>
          simp only [List.get_cons_succ]
          exact hget i (by simpa using h1) (by simpa using h2)

end OncoGen

namespace OncoGen.GenData

theorem mem_first_occurrence_go [DecidableEq α] :
    ∀ {l seen : List α} {x : α},
      x ∈ first_occurrence_go seen l ↔ x ∈ l ∧ x ∉ seen := by
  intro l
  induction l with
  | nil => intro seen x; simp [first_occurrence_go]
  | cons y ys ih =>
    intro seen x
    by_cases hy : y ∈ seen
    · simp only [first_occurrence_go, if_pos hy, ih, List.mem_cons]
      constructor
      · rintro ⟨h1, h2⟩; exact ⟨Or.inr h1, h2⟩
      · rintro ⟨h1 | h1, h2⟩
        · exact absurd (h1 ▸ hy) h2
        · exact ⟨h1, h2⟩
    · simp only [first_occurrence_go, if_neg hy, List.mem_cons, ih]
      by_cases hxy : x = y
      · subst hxy
        simp [hy]
      · simp [hxy]

theorem nodup_first_occurrence_go [DecidableEq α] :
    ∀ (l seen : List α), (first_occurrence_go seen l).Nodup := by
  intro l
  induction l with
  | nil => intro seen; simp [first_occurrence_go]
  | cons y ys ih =>
    intro seen
    by_cases hy : y ∈ seen
    · simpa [first_occurrence_go, hy] using ih seen
    · simp only [first_occurrence_go, if_neg hy]
      refine List.Nodup.cons ?_ (ih (y :: seen))
      intro hmem
      exact (mem_first_occurrence_go.mp hmem).2 (List.mem_cons_self y seen)

theorem mem_first_occurrence_keys [DecidableEq α] {l : List α} {x : α} :
    x ∈ first_occurrence_keys l ↔ x ∈ l := by
  simp [first_occurrence_keys, mem_first_occurrence_go]

theorem nodup_first_occurrence_keys [DecidableEq α] (l : List α) :
    (first_occurrence_keys l).Nodup :=
  nodup_first_occurrence_go l []

theorem filter_flatten_groups [DecidableEq κ] (keyOf : β → κ) :
    ∀ (keys : List κ) (f : κ → List β), keys.Nodup →
      (∀ k', ∀ b ∈ f k', keyOf b = k') → ∀ k,
      (List.flatten (keys.map f)).filter (fun b => decide (keyOf b = k)) =
        if k ∈ keys then f k else [] := by
  intro keys
  induction keys with
  | nil => intro f _ _ k; simp
  | cons k' ks ih =>
    intro f hnd hkey k
    have hnd' : ks.Nodup := hnd.of_cons
    simp only [List.map_cons, List.flatten_cons, List.filter_append]
    rw [ih f hnd' hkey k]
    by_cases hk : k = k'
    · subst hk
      have h1 : (f k).filter (fun b => decide (keyOf b = k)) = f k :=
        List.filter_eq_self.mpr fun b hb => by simp [hkey k b hb]
      have h2 : k ∉ ks := (List.nodup_cons.mp hnd).1
      simp [h1, h2]
    · have h1 : (f k').filter (fun b => decide (keyOf b = k)) = [] :=
        List.filter_eq_nil_iff.mpr fun b hb => by simp [hkey k' b hb, Ne.symm hk]
      have h2 : (k ∈ k' :: ks) = (k ∈ ks) := by simp [hk]
      simp only [h1, List.nil_append, List.mem_cons, hk, false_or]

theorem filter_flatten_optionMapList [DecidableEq κ] (keyOf : β → κ)
    {f : κ → Option (List β)} :
    ∀ {keys : List κ} {ls : List (List β)}, optionMapList f keys = some ls → keys.Nodup →
      (∀ k' l', f k' = some l' → ∀ b ∈ l', keyOf b = k') →
      ∀ {k : κ} {lk : List β}, f k = some lk → k ∈ keys →
      ls.flatten.filter (fun b => decide (keyOf b = k)) = lk := by
  intro keys
  induction keys with
  | nil =>
    intro ls h _ _ k lk _ hmem
    simp at hmem
  | cons k' ks ih =>
    intro ls h hnd hkey k lk hfk hmem
    cases hfa : f k' with
    | none => simp [optionMapList, hfa] at h
    | some l0 =>
      cases hrest : optionMapList f ks with
      | none => simp [optionMapList, hfa, hrest] at h
      | some ls0 =>
        simp only [optionMapList, hfa, hrest, Option.some.injEq] at h
        subst h
        simp only [List.flatten_cons, List.filter_append]
        by_cases hk : k = k'
        · subst hk
          rw [hfa] at hfk
          injection hfk with hfk
          rw [← hfk]
          have h1 : l0.filter (fun b => decide (keyOf b = k)) = l0 :=
            List.filter_eq_self.mpr fun b hb => by simp [hkey k l0 hfa b hb]
          have h2 : k ∉ ks := (List.nodup_cons.mp hnd).1
          have h3 : ls0.flatten.filter (fun b => decide (keyOf b = k)) = [] := by
            refine List.filter_eq_nil_iff.mpr ?_
            intro b hb
            obtain ⟨l', hl', hbl'⟩ := List.mem_flatten.mp hb
            obtain ⟨a, ha, hfa'⟩ := optionMapList_mem hrest l' hl'
            have hka := hkey a l' hfa' b hbl'
            simp only [decide_eq_true_eq]
            intro hEq
            have hak : a = k := by rw [← hka]; exact hEq
            exact h2 (hak ▸ ha)
          rw [h1, h3, List.append_nil]
        · have h1 : l0.filter (fun b => decide (keyOf b = k)) = [] :=
            List.filter_eq_nil_iff.mpr fun b hb => by simp [hkey k' l0 hfa b hb, Ne.symm hk]
          have hmem' : k ∈ ks := by
            rcases List.mem_cons.mp hmem with h' | h'
            · exact absurd h' hk
            · exact h'
          rw [h1, List.nil_append]
          exact ih hrest hnd.of_cons hkey hfk hmem'

end OncoGen.GenData

namespace OncoGen.Examples

/-!
Concrete inputs used by witness and counterexample theorems.
-/

open OncoGen.GenData

/-- The "Breast Cancer" entry of `CANCER_TYPES`. -/
def exBreastCT : CancerType :=
  { name := "Breast Cancer"
  , histologies := ["Invasive Ductal Carcinoma", "Invasive Lobular carcinoma", "Triple Negative"]
  , common_mutations := ["BRCA1", "BRCA2", "PIK3CA", "TP53", "PTEN", "CDH1", "PALB2"] }

/-- A breast-cancer diagnosis with diagnosis date day 0. -/
def exDiag : DiagnosisRec :=
  { diagnosisId := 7, patientId := 3, cancerType := exBreastCT, diagnosisDate := 0
  , tStage := "T3", nStage := "N0", mStage := "M0", histology := "Triple Negative" }

/-- A TP53 variant of `exDiag`; no drug of the breast-cancer table has "TP53"
in its target-gene field. -/
def exVariant : VariantRec :=
  { variantId := 11, geneSymbol := "TP53", chromosome := "17", position := 7577120
  , referenceAllele := "C", alternateAllele := "T", variantType := "SNV"
  , alleleFrequency1000 := 320, readDepth := 180, filterStatus := "PASS"
  , patientId := 3, diagnosisId := 7, cancerType := exBreastCT }

/-- A BRCA1 variant of `exDiag`; "BRCA1" occurs in the target-gene field
"BRCA1/2" of Olaparib. -/
def exVariantBrca : VariantRec :=
  { exVariant with variantId := 12, geneSymbol := "BRCA1" }

def exTherapyRng : TherapyRng :=
  { fallback := fun _ => 0, date := fun _ _ => 0, level := fun _ _ => 0 }

def exPatientRng : PatientRng :=
  { gender := fun _ => 0, dob := fun _ => 0, pid := fun i => i + 1 }

def exDiagRng : DiagRng :=
  { num := fun _ => 0, cancer := fun _ _ => 0, date := fun _ _ => 0, t := fun _ _ => 0
  , n := fun _ _ => 0, m := fun _ _ => 0, hist := fun _ _ => 0, did := fun i j => 10 * i + j + 1 }

def exSampleRng : SampleRng :=
  { num := fun _ => 0, ty := fun _ _ => 0, purity := fun _ _ => 0, quality := fun _ _ => 0
  , date := fun _ _ => 0, sid := fun i j => 10 * i + j + 1 }

/-- Sample oracle producing three samples per diagnosis, a third sample of
type "Tumor Tissue" and a zero purity draw for it. -/
def exSampleRng3 : SampleRng :=
  { num := fun _ => 2, ty := fun _ _ => 0, purity := fun _ _ => 0, quality := fun _ _ => 0
  , date := fun _ _ => 0, sid := fun i j => 10 * i + j + 1 }

def exSeqRng : SeqRng :=
  { plat := fun _ => 0, lib := fun _ => 0, date := fun _ => 0, rl := fun _ => 0
  , cov := fun _ => 0 }

def exGatkRng : GatkRng := { caller := fun _ => 0, fs := fun _ => 0 }

def exVariantRng : VariantRng :=
  { num := fun _ => 0, gene := fun _ _ => 0, chrom := fun _ _ => 0, pos := fun _ _ => 0
  , ref := fun _ _ => 0, alt := fun _ _ => 0, vty := fun _ _ => 0, af := fun _ _ => 0
  , rd := fun _ _ => 0, fs := fun _ _ => 0, vid := fun i j => 10 * i + j + 1 }

def exInterpRng : InterpRng :=
  { sig := fun _ => 0, sigDriver := fun _ => 0, level := fun _ => 0, text := fun _ => 0
  , ref1 := fun _ => 0, ref2 := fun _ => 0 }

def exFollowupRng : FollowupRng :=
  { num := fun _ => 1, firstOffset := fun _ => 0, inc := fun _ _ => 0
  , status := fun _ _ => 0, imgPct := fun _ _ => 0, imgSite := fun _ _ => 0
  , numAe := fun _ _ => 0, ae := fun _ _ _ => 0
  , next := fun _ i => if i = 0 then 60 else 0 }

def exOracles : Oracles :=
  { patient := exPatientRng, diag := exDiagRng, sample := exSampleRng, seqr := exSeqRng
  , gatk := exGatkRng, variant := exVariantRng, interp := exInterpRng
  , therapy := exTherapyRng, followup := exFollowupRng }

/-- A tumor-tissue sample of diagnosis 1 with no matching blood sample. -/
def exTumorSample : CSample :=
  { sampleId := 21, sampleType := "Tumor Tissue", collectionDate := 5
  , tumorPurity100 := 80, qualityScore10 := 75, diagnosisId := 1, diagnosisDate := 0 }

/-- A blood sample of diagnosis 1. -/
def exBloodSample : CSample :=
  { sampleId := 22, sampleType := "Blood", collectionDate := 6
  , tumorPurity100 := 0, qualityScore10 := 80, diagnosisId := 1, diagnosisDate := 0 }

/-- A therapy recommendation for patient 5 dated day 0. -/
def exRec : TherapyRec :=
  { patientId := 5, diagnosisId := 7, drug := ⟨"Olaparib", "300mg twice daily", "BRCA1/2"⟩
  , recommendationDate := 0, evidenceLevel := "Level 1A", linkedVariants := []
  , isFallback := true }

end OncoGen.Examples

namespace OncoGen

/-!
Claim theorems.
-/

theorem any_range_eq_false {n : Nat} {p : Nat → Bool}
    (h : ∀ i, i < n → p i = false) : (List.range n).any p = false := by
  by_contra hcon
  rw [Bool.not_eq_false, List.any_eq_true] at hcon
  obtain ⟨i, hi, hp⟩ := hcon
  rw [List.mem_range] at hi
  rw [h i hi] at hp
  cases hp

/-- Claim C7: if the readiness probe exhausts its bounded retry count without
the health endpoint ever returning success, the run aborts before any
submission phase: `main` of the combined generator returns right after
`wait_for_application`, so zero entities are created in any stage
(`RunOutcome.serviceUnavailable` carries no stage collection), and likewise
the standalone patients script exits before generating anything. -/
theorem claim_C7 (health : Nat → Option Nat) (now : Int) (count : Nat)
    (o : GenData.Oracles) (responses : Nat → Option HttpResponse)
    (h : ∀ i, i < 30 → health i ≠ some 200) :
    GenData.wait_for_application health = false ∧
    GenData.main_run health now count o = GenData.RunOutcome.serviceUnavailable ∧
    Scripts.wait_for_application health = false ∧
    Scripts.patients_main health count responses = none := by
  have hp : ∀ i, i < 30 →
      (match health i with | some s => s == 200 | none => false) = false := by
    intro i hi
    cases hh : health i with
    | none => rfl
    | some s =>
      simp only [beq_eq_false_iff_ne, ne_eq]
      intro hs
      exact h i hi (by rw [hh, hs])
  have h30 : GenData.wait_for_application health = false :=
    any_range_eq_false fun i hi => hp i hi
  have h10 : Scripts.wait_for_application health = false :=
    any_range_eq_false fun i hi => hp i (by omega)
  refine ⟨h30, ?_, h10, ?_⟩
  · simp [GenData.main_run, h30]
  · simp [Scripts.patients_main, h10]

/-- Witness for C7: a network that always raises never reports ready, and the
run is aborted with no entity submitted. -/
theorem claim_C7_witness :
    (∀ i, i < 30 → (fun _ => (none : Option Nat)) i ≠ some 200) ∧
    GenData.main_run (fun _ => none) 0 5 Examples.exOracles =
      GenData.RunOutcome.serviceUnavailable ∧
    Scripts.patients_main (fun _ => none) 5 (fun _ => none) = none :=
  ⟨fun _ _ => by simp,
   (claim_C7 (fun _ => none) 0 5 Examples.exOracles (fun _ => none)
      (fun _ _ => by simp)).2.1,
   (claim_C7 (fun _ => none) 0 5 Examples.exOracles (fun _ => none)
      (fun _ _ => by simp)).2.2.2⟩

end OncoGen

namespace OncoGen

theorem patients_loop_spec (responses : Nat → Option HttpResponse) :
    ∀ (n i : Nat),
      (Scripts.patients_loop responses i n).1.length +
        (Scripts.patients_loop responses i n).2 = n ∧
      (Scripts.patients_loop responses i n).2 =
        (List.range' i n).countP
          fun j => decide (Scripts.call_api (responses j) = ApiOutcome.failure) := by
  intro n
  induction n with
  | zero => intro i; simp [Scripts.patients_loop]
  | succ n ih =>
    intro i
    obtain ⟨ih1, ih2⟩ := ih (i + 1)
    rw [List.range'_succ]
    cases hr : Scripts.call_api (responses i) with
    | failure =>
      simp only [Scripts.patients_loop, hr, List.countP_cons]
      constructor
      · omega
      · simp [ih2, hr]
    | parsed p =>
      simp only [Scripts.patients_loop, hr, List.countP_cons, List.length_cons]
      constructor
      · omega
      · simp [ih2, hr]
    | bareSuccess =>
      simp only [Scripts.patients_loop, hr, List.countP_cons, List.length_cons]
      constructor
      · omega
      · simp [ih2, hr]

/-- Claim C8 (amended): the scripts' submission operation parses a 2xx
response, turns a 2xx response with an unparseable body into the bare-success
marker, and classifies every non-2xx response and network failure as an
item-level failure; its caller counts each failure and proceeds to the next
candidate (every candidate is attempted and the error count equals the number
of failure-classified calls).  The combined generator's submission operation,
however, returns the parsed body only for a non-204 response with status
below 400, and maps a 204, an unparseable body, a status of 400 or above, and
a network failure all to `None` (an item-level failure, not a bare-success
marker).  Neither operation retries: each consumes exactly one response. -/
theorem claim_C8 (r : HttpResponse) (p : String) (count : Nat)
    (responses : Nat → Option HttpResponse) :
    (200 ≤ r.status → r.status < 300 → r.body = some p →
      Scripts.call_api (some r) = ApiOutcome.parsed p) ∧
    (200 ≤ r.status → r.status < 300 → r.body = none →
      Scripts.call_api (some r) = ApiOutcome.bareSuccess) ∧
    (¬(200 ≤ r.status ∧ r.status < 300) → Scripts.call_api (some r) = ApiOutcome.failure) ∧
    Scripts.call_api none = ApiOutcome.failure ∧
    ((Scripts.generate_patients count responses).1.length +
        (Scripts.generate_patients count responses).2 = count) ∧
    ((Scripts.generate_patients count responses).2 =
      (List.range count).countP
        fun j => decide (Scripts.call_api (responses j) = ApiOutcome.failure)) ∧
    (r.status < 400 → r.status ≠ 204 → GenData.call_api (some r) = r.body) ∧
    (400 ≤ r.status ∨ r.status = 204 ∨ r.body = none → GenData.call_api (some r) = none) ∧
    GenData.call_api none = none := by
  refine ⟨?_, ?_, ?_, rfl, ?_, ?_, ?_, ?_, rfl⟩
  · intro h1 h2 hb
    simp [Scripts.call_api, if_pos (And.intro h1 h2), hb]
  · intro h1 h2 hb
    simp [Scripts.call_api, if_pos (And.intro h1 h2), hb]
  · intro h
    simp [Scripts.call_api, if_neg h]
  · exact (patients_loop_spec responses count 0).1
  · rw [List.range_eq_range']
    exact (patients_loop_spec responses count 0).2
  · intro h1 h2
    simp [GenData.call_api, Nat.not_le.mpr h1, h2]
  · rintro (h | h | h)
    · simp [GenData.call_api, h]
    · simp [GenData.call_api, h]
    · by_cases h4 : 400 ≤ r.status
      · simp [GenData.call_api, h4]
      · by_cases h204 : r.status = 204
        · simp [GenData.call_api, h204]
        · simp [GenData.call_api, h4, h204, h]

/-- Counterexample for C8: a 204 response (a 2xx response whose empty body
cannot be parsed) is a bare-success marker for the scripts' operation but an
item-level failure (`None`) for the combined generator's operation, so the
claim's bare-success clause is false for the latter. -/
theorem claim_C8_counterexample :
    GenData.call_api (some ⟨204, none⟩) = none ∧
    Scripts.call_api (some ⟨204, none⟩) = ApiOutcome.bareSuccess := by
  constructor <;> rfl

/-- Witness for C8: a parsed 201 response for the scripts' operation, and a
three-call run with one network failure counted while the other two entities
are still created. -/
theorem claim_C8_witness :
    ((200 : Nat) ≤ 201 ∧ (201 : Nat) < 300) ∧
    Scripts.call_api (some ⟨201, some "patient"⟩) = ApiOutcome.parsed "patient" ∧
    ((Scripts.generate_patients 3
        (fun i => if i = 1 then none else some ⟨201, some "patient"⟩)).1.length +
      (Scripts.generate_patients 3
        (fun i => if i = 1 then none else some ⟨201, some "patient"⟩)).2 = 3) :=
  ⟨⟨by omega, by omega⟩,
   (claim_C8 ⟨201, some "patient"⟩ "patient" 3
      (fun i => if i = 1 then none else some ⟨201, some "patient"⟩)).1
     (by decide) (by decide) rfl,
   (claim_C8 ⟨201, some "patient"⟩ "patient" 3
      (fun i => if i = 1 then none else some ⟨201, some "patient"⟩)).2.2.2.2.1⟩

end OncoGen

namespace OncoGen

/-- The date-of-birth draw of the combined generator, in closed form: the
window between `now - 80 * 365` and `now - 30 * 365` has the constant width
`50 * 365 = 18250` days, so the draw always succeeds. -/
theorem patient_dob_eq (now : Int) (r : Nat) :
    GenData.patient_dob now r =
      some (now - 80 * 365 + ((r % 18250 : Nat) : Int)) := by
  unfold GenData.patient_dob GenData.generate_random_date
  have hw : (now - 30 * 365) - (now - 80 * 365) = (18250 : Int) := by ring
  rw [hw]
  norm_num

/-- Claim C9 (amended): every generated date of birth lies between
`80 × 365 = 29200` days and `30 × 365 + 1 = 10951` days before generation
time in the combined generator, and exactly `365 k` days before generation
time for some `k` between 30 and 80 in the standalone patients script.
Because the source approximates a year as 365 days, these spans bound the age
at generation time by 80 calendar years from above but can leave it slightly
under 30 calendar years (by up to the number of elapsed leap days). -/
theorem claim_C9 (now : Int) (r : Nat) :
    (∀ d, GenData.patient_dob now r = some d → now - 29200 ≤ d ∧ d ≤ now - 10951) ∧
    (∃ d, GenData.patient_dob now r = some d) ∧
    (∃ k : Nat, 30 ≤ k ∧ k ≤ 80 ∧ Scripts.patient_dob now r = now - 365 * (k : Int)) := by
  refine ⟨?_, ⟨_, patient_dob_eq now r⟩, ?_⟩
  · intro d hd
    rw [patient_dob_eq] at hd
    injection hd with hd
    have h1 : r % 18250 < 18250 := Nat.mod_lt _ (by norm_num)
    omega
  · refine ⟨randint 30 80 r, randint_le 30 80 r, randint_ge 30 80 r (by norm_num), ?_⟩
    unfold Scripts.patient_dob
    push_cast
    ring

/-- Counterexample for C9: with generation time 2026-10-12 (day number
`daysFromCivil 2026 10 12`), the draw 18249 yields the date of birth
1996-10-18; the patient's 30th birthday, 2026-10-18, is after generation
time, so the date of birth is less than 30 years before generation time and
the patient's age is under 30 years. -/
theorem claim_C9_counterexample :
    GenData.patient_dob ((daysFromCivil 2026 10 12 : Nat) : Int) 18249 =
      some ((daysFromCivil 1996 10 18 : Nat) : Int) ∧
    daysFromCivil 2026 10 12 < daysFromCivil (1996 + 30) 10 18 := by
  constructor
  · decide
  · decide

/-- Witness for C9: at generation time day 740206 (2026-10-12) with draw 0,
the combined generator's date of birth satisfies the amended bounds. -/
theorem claim_C9_witness :
    (∀ d, GenData.patient_dob 740206 0 = some d →
      740206 - 29200 ≤ d ∧ d ≤ 740206 - 10951) ∧
    (∃ k : Nat, 30 ≤ k ∧ k ≤ 80 ∧ Scripts.patient_dob 740206 0 = 740206 - 365 * (k : Int)) :=
  ⟨(claim_C9 740206 0).1, (claim_C9 740206 0).2.2⟩

end OncoGen

namespace OncoGen

/-- Claim C10: a therapy recommendation produced via the no-match fallback
can reference zero variants.  For a breast-cancer diagnosis whose only
variant is on TP53, no drug of the breast-cancer table matches, so a fallback
drug (here Olaparib, target-gene field "BRCA1/2") is drawn at random; the
payload's `variantIds` filter then links no variant, because "TP53" does not
occur in "BRCA1/2", even though the diagnosis has a variant. -/
theorem claim_C10 :
    (GenData.generate_therapy_recommendations [Examples.exDiag] 100 Examples.exTherapyRng
        [Examples.exVariant]).map
      (List.map fun rec =>
        (rec.isFallback, rec.drug.name, rec.drug.gene, rec.linkedVariants.length)) =
      some [(true, "Olaparib", "BRCA1/2", 0)] ∧
    Examples.exVariant.diagnosisId = Examples.exDiag.diagnosisId ∧
    strIn Examples.exVariant.geneSymbol "BRCA1/2" = false := by
  refine ⟨?_, rfl, ?_⟩
  · decide
  · decide

end OncoGen

namespace OncoGen.GenData

theorem mem_gatk_jobs_for_diagnosis {samples : List CSample} {o : GatkRng} {dId : Nat}
    {job : GatkJob} (h : job ∈ gatk_jobs_for_diagnosis samples o dId) :
    job.tumorSample ∈ samples ∧ job.tumorSample.sampleType = "Tumor Tissue" ∧
    job.tumorSample.diagnosisId = dId ∧
    job.normalSample ∈ samples ∧ job.normalSample.sampleType = "Blood" ∧
    job.normalSample.diagnosisId = dId ∧
    some job.normalSample =
      ((samples.filter fun s => s.diagnosisId == dId).filter
        fun s => s.sampleType == "Blood").head? := by
  simp only [gatk_jobs_for_diagnosis] at h
  rcases hfn : (samples.filter fun s => s.diagnosisId == dId).filter
      (fun s => s.sampleType == "Blood") with _ | ⟨n0, rest⟩
  · rw [hfn] at h
    simp at h
  · rw [hfn] at h
    simp only [List.mem_map] at h
    obtain ⟨t, ht, rfl⟩ := h
    have ht1 := List.mem_filter.mp ht
    have ht2 := List.mem_filter.mp ht1.1
    have hn0 : n0 ∈ (samples.filter fun s => s.diagnosisId == dId).filter
        (fun s => s.sampleType == "Blood") := by
      rw [hfn]; exact List.mem_cons_self n0 rest
    have hn1 := List.mem_filter.mp hn0
    have hn2 := List.mem_filter.mp hn1.1
    refine ⟨ht2.1, by simpa using ht1.2, by simpa using ht2.2,
      hn2.1, by simpa using hn1.2, by simpa using hn2.2, ?_⟩
    rw [hfn]
    rfl

theorem mem_generate_gatk_jobs {samples : List CSample} {o : GatkRng} {job : GatkJob}
    (h : job ∈ generate_gatk_jobs samples o) :
    ∃ dId, job ∈ gatk_jobs_for_diagnosis samples o dId := by
  unfold generate_gatk_jobs at h
  obtain ⟨l, hl, hjl⟩ := List.mem_flatten.mp h
  obtain ⟨dId, _, rfl⟩ := List.mem_map.mp hl
  exact ⟨dId, hjl⟩

end OncoGen.GenData

namespace OncoGen.Scripts

theorem find_normal_sample_some {samples : List SSample} {t : SSample} {r : Nat}
    {ns : SSample} (h : find_normal_sample samples t r = some ns) :
    ns ∈ samples ∧ ns.sampleType = "Normal" ∧ ns.diagnosisId = t.diagnosisId := by
  cases ht : t.diagnosisId with
  | none => simp [find_normal_sample, ht] at h
  | some d =>
    simp only [find_normal_sample, ht] at h
    by_cases h0 : d = 0
    · rw [if_pos h0] at h; cases h
    · rw [if_neg h0] at h
      split at h
      · cases h
      · injection h with h
        have hmem : ns ∈ samples.filter
            (fun s => s.sampleType == "Normal" && s.diagnosisId == some d) := by
          rw [← h]
          exact List.get_mem _ _ _
        have h1 := List.mem_filter.mp hmem
        have h2 : (ns.sampleType == "Normal") = true ∧ (ns.diagnosisId == some d) = true := by
          simpa using h1.2
        refine ⟨h1.1, by simpa using h2.1, ?_⟩
        simpa using h2.2

theorem find_normal_sample_none_of_empty {samples : List SSample} {t : SSample}
    {d : Nat} (hd : t.diagnosisId = some d)
    (hf : samples.filter (fun s => s.sampleType == "Normal" && s.diagnosisId == some d) = [])
    (r : Nat) : find_normal_sample samples t r = none := by
  simp only [find_normal_sample, hd]
  by_cases h0 : d = 0
  · rw [if_pos h0]
  · rw [if_neg h0]
    have hlen : (samples.filter
        (fun s => s.sampleType == "Normal" && s.diagnosisId == some d)).length = 0 := by
      rw [hf]; rfl
    rw [dif_pos hlen]

theorem find_normal_sample_isSome {samples : List SSample} {t : SSample} {d : Nat}
    (hd : t.diagnosisId = some d) (h0 : d ≠ 0)
    (hf : samples.filter (fun s => s.sampleType == "Normal" && s.diagnosisId == some d) ≠ [])
    (r : Nat) : (find_normal_sample samples t r).isSome := by
  simp only [find_normal_sample, hd]
  rw [if_neg h0]
  have hlen : (samples.filter
      (fun s => s.sampleType == "Normal" && s.diagnosisId == some d)).length ≠ 0 := by
    intro hc
    exact hf (List.eq_nil_of_length_eq_zero hc)
  rw [dif_neg hlen]
  rfl

theorem find_normal_sample_reaches {samples : List SSample} {t : SSample} {d : Nat}
    (hd : t.diagnosisId = some d) (h0 : d ≠ 0) {ns : SSample}
    (hns : ns ∈ samples.filter (fun s => s.sampleType == "Normal" && s.diagnosisId == some d)) :
    ∃ r, find_normal_sample samples t r = some ns := by
  obtain ⟨⟨j, hj⟩, hget⟩ := List.mem_iff_get.mp hns
  refine ⟨j, ?_⟩
  simp only [find_normal_sample, hd]
  rw [if_neg h0]
  have hlen : (samples.filter
      (fun s => s.sampleType == "Normal" && s.diagnosisId == some d)).length ≠ 0 := by
    omega
  rw [dif_neg hlen]
  rw [← hget]
  exact congrArg some (congrArg _ (Fin.ext (Nat.mod_eq_of_lt hj)))

theorem gatk_jobs_loop_length {samples : List SSample} {o : SGatkRng} :
    ∀ (ts : List SSample) (i : Nat), (gatk_jobs_loop samples o i ts).length = ts.length := by
  intro ts
  induction ts with
  | nil => intro i; rfl
  | cons t ts ih => intro i; simp [gatk_jobs_loop, ih]

theorem gatk_jobs_loop_get {samples : List SSample} {o : SGatkRng} :
    ∀ (ts : List SSample) (i k : Nat) (h1 : k < (gatk_jobs_loop samples o i ts).length)
      (h2 : k < ts.length),
      (gatk_jobs_loop samples o i ts).get ⟨k, h1⟩ =
        { tumorSample := ts.get ⟨k, h2⟩
        , normalSample := find_normal_sample samples (ts.get ⟨k, h2⟩) (o.choice (i + k))
        , pipelineVersion := choiceD PIPELINE_VERSIONS "" (o.pv (i + k))
        , callingMethod := choiceD CALLING_METHODS "" (o.cm (i + k)) } := by
  intro ts
  induction ts with
  | nil => intro i k h1 h2; simp at h2
  | cons t ts ih =>
    intro i k h1 h2
    cases k with
    | zero => simp [gatk_jobs_loop]
    | succ k =>
      have h1' : k < (gatk_jobs_loop samples o (i + 1) ts).length := by
        simpa [gatk_jobs_loop, gatk_jobs_loop_length] using h1
      have h2' : k < ts.length := by simpa using h2
      have hidx : i + 1 + k = i + (k + 1) := by omega
      simpa [gatk_jobs_loop, hidx] using ih (i + 1) k h1' h2'

theorem mem_gatk_jobs_loop {samples : List SSample} {o : SGatkRng} :
    ∀ {ts : List SSample} {i : Nat} {job : SGatkJob}, job ∈ gatk_jobs_loop samples o i ts →
      ∃ r, job.tumorSample ∈ ts ∧
        job.normalSample = find_normal_sample samples job.tumorSample r := by
  intro ts
  induction ts with
  | nil => intro i job h; cases h
  | cons t ts ih =>
    intro i job h
    rcases List.mem_cons.mp h with h | h
    · subst h
      exact ⟨o.choice i, List.mem_cons_self _ _, rfl⟩
    · obtain ⟨r, hmem, hfind⟩ := ih h
      exact ⟨r, List.mem_cons_of_mem _ hmem, hfind⟩

end OncoGen.Scripts

namespace OncoGen.Examples

/-- The job the combined generator produces for `exTumorSample` paired with
`exBloodSample` under the all-zero oracle. -/
def exGatkJob : GenData.GatkJob :=
  { tumorSample := exTumorSample, normalSample := exBloodSample
  , caller := "Mutect2", filterSettings := "default" }

/-- A tumor sample of diagnosis 4 in the scripts pipeline. -/
def exSTumor : Scripts.SSample :=
  { sampleId := 31, diagnosisId := some 4, sampleType := "Tumor", collectionDate := 3
  , tissueType := "FFPE", sampleSite := "Primary", tumorPurity := some 70 }

/-- A normal sample of diagnosis 4 in the scripts pipeline. -/
def exSNormal : Scripts.SSample :=
  { sampleId := 32, diagnosisId := some 4, sampleType := "Normal", collectionDate := 4
  , tissueType := "Blood", sampleSite := "Blood", tumorPurity := none }

def exSGatkRng : Scripts.SGatkRng :=
  { choice := fun _ => 0, pv := fun _ => 0, cm := fun _ => 0 }

/-- The job the scripts' GATK generator produces for `exSTumor` with normal
sample `exSNormal` under the all-zero oracle. -/
def exSGatkJob : Scripts.SGatkJob :=
  { tumorSample := exSTumor, normalSample := some exSNormal
  , pipelineVersion := "4.2.0.0", callingMethod := "Mutect2" }

end OncoGen.Examples

namespace OncoGen

/-- Claim C2: in both generators, whenever a variant-calling job carries a
normal-sample reference, that normal sample's parent diagnosis identifier
equals the tumor sample's parent diagnosis identifier; the combined generator
pairs within one diagnosis group, and the scripts generator selects the
normal sample by filtering on the tumor sample's diagnosis identifier. -/
theorem claim_C2 (csamples : List GenData.CSample) (o : GenData.GatkRng)
    (samples : List Scripts.SSample) (so : Scripts.SGatkRng) :
    (∀ job ∈ GenData.generate_gatk_jobs csamples o,
      job.normalSample.diagnosisId = job.tumorSample.diagnosisId) ∧
    (∀ job ∈ Scripts.generate_gatk_jobs samples so, ∀ ns, job.normalSample = some ns →
      ns.diagnosisId = job.tumorSample.diagnosisId) := by
  constructor
  · intro job hj
    obtain ⟨dId, hmem⟩ := GenData.mem_generate_gatk_jobs hj
    obtain ⟨_, _, ht, _, _, hn, _⟩ := GenData.mem_gatk_jobs_for_diagnosis hmem
    rw [ht, hn]
  · intro job hj ns hns
    obtain ⟨r, _, hfind⟩ := Scripts.mem_gatk_jobs_loop hj
    rw [hns] at hfind
    exact (Scripts.find_normal_sample_some hfind.symm).2.2

/-- Witness for C2: a concrete tumor-blood pair of diagnosis 1 yields a job
whose normal sample shares the tumor sample's diagnosis identifier. -/
theorem claim_C2_witness :
    Examples.exGatkJob ∈ GenData.generate_gatk_jobs
      [Examples.exTumorSample, Examples.exBloodSample] Examples.exGatkRng ∧
    Examples.exGatkJob.normalSample.diagnosisId =
      Examples.exGatkJob.tumorSample.diagnosisId :=
  ⟨by decide,
   (claim_C2 [Examples.exTumorSample, Examples.exBloodSample] Examples.exGatkRng
      [] ⟨fun _ => 0, fun _ => 0, fun _ => 0⟩).1 Examples.exGatkJob (by decide)⟩

/-- Claim C3 (amended): in the standalone GATK script, every tumor-type
sample ("Tumor", "Metastasis" or "Recurrence") yields exactly one submitted
job, in order (never suppressed); a normal sample is attached exactly when a
"Normal" sample of the same (nonzero) diagnosis exists, chosen uniformly at
random among the candidates (each uniform draw picks the candidate at the
drawn index modulo the candidate count, and every candidate is reachable);
otherwise the job is tumor-only.  In the combined generator, by contrast,
jobs are created only for diagnoses that have both a "Tumor Tissue" and a
"Blood" sample, and every tumor sample is paired with the group's first
"Blood" sample; a tumor sample without a same-diagnosis blood sample yields
no job at all (see the counterexample). -/
theorem claim_C3 (samples : List Scripts.SSample) (so : Scripts.SGatkRng)
    (csamples : List GenData.CSample) (o : GenData.GatkRng) :
    ((Scripts.generate_gatk_jobs samples so).length =
      (samples.filter fun s => Scripts.TUMOR_SAMPLE_TYPES.contains s.sampleType).length) ∧
    (∀ k (h1 : k < (Scripts.generate_gatk_jobs samples so).length)
        (h2 : k < (samples.filter
          fun s => Scripts.TUMOR_SAMPLE_TYPES.contains s.sampleType).length),
      ((Scripts.generate_gatk_jobs samples so).get ⟨k, h1⟩).tumorSample =
        (samples.filter fun s => Scripts.TUMOR_SAMPLE_TYPES.contains s.sampleType).get
          ⟨k, h2⟩) ∧
    (∀ job ∈ Scripts.generate_gatk_jobs samples so, ∀ ns, job.normalSample = some ns →
      ns ∈ samples ∧ ns.sampleType = "Normal" ∧
        ns.diagnosisId = job.tumorSample.diagnosisId) ∧
    (∀ job ∈ Scripts.generate_gatk_jobs samples so, ∀ d,
      job.tumorSample.diagnosisId = some d → d ≠ 0 →
      (samples.filter fun s => s.sampleType == "Normal" && s.diagnosisId == some d) ≠ [] →
      job.normalSample.isSome) ∧
    (∀ job ∈ Scripts.generate_gatk_jobs samples so, ∀ d,
      job.tumorSample.diagnosisId = some d →
      (samples.filter fun s => s.sampleType == "Normal" && s.diagnosisId == some d) = [] →
      job.normalSample = none) ∧
    (∀ (t : Scripts.SSample) (d : Nat), t.diagnosisId = some d → d ≠ 0 →
      ∀ ns ∈ samples.filter fun s => s.sampleType == "Normal" && s.diagnosisId == some d,
      ∃ r, Scripts.find_normal_sample samples t r = some ns) ∧
    (∀ job ∈ GenData.generate_gatk_jobs csamples o,
      job.tumorSample.sampleType = "Tumor Tissue" ∧
      job.normalSample.sampleType = "Blood" ∧
      job.normalSample.diagnosisId = job.tumorSample.diagnosisId ∧
      some job.normalSample =
        ((csamples.filter fun s => s.diagnosisId == job.tumorSample.diagnosisId).filter
          fun s => s.sampleType == "Blood").head?) := by
  refine ⟨Scripts.gatk_jobs_loop_length _ _, ?_, ?_, ?_, ?_, ?_, ?_⟩
  · intro k h1 h2
    unfold Scripts.generate_gatk_jobs at h1 ⊢
    rw [Scripts.gatk_jobs_loop_get _ 0 k h1 h2]
  · intro job hj ns hns
    obtain ⟨r, _, hfind⟩ := Scripts.mem_gatk_jobs_loop hj
    rw [hns] at hfind
    exact Scripts.find_normal_sample_some hfind.symm
  · intro job hj d hd h0 hne
    obtain ⟨r, _, hfind⟩ := Scripts.mem_gatk_jobs_loop hj
    rw [hfind]
    exact Scripts.find_normal_sample_isSome hd h0 hne r
  · intro job hj d hd hempty
    obtain ⟨r, _, hfind⟩ := Scripts.mem_gatk_jobs_loop hj
    rw [hfind]
    exact Scripts.find_normal_sample_none_of_empty hd hempty r
  · intro t d hd h0 ns hns
    exact Scripts.find_normal_sample_reaches hd h0 hns
  · intro job hj
    obtain ⟨dId, hmem⟩ := GenData.mem_generate_gatk_jobs hj
    obtain ⟨_, htt, htd, _, hnt, hnd, hhead⟩ := GenData.mem_gatk_jobs_for_diagnosis hmem
    refine ⟨htt, hnt, by rw [htd, hnd], ?_⟩
    rw [htd]
    exact hhead

/-- Counterexample for C3: a diagnosis with one tumor-tissue sample and no
blood sample yields no variant-calling job at all in the combined generator,
although the claim requires a tumor-only job to be submitted. -/
theorem claim_C3_counterexample :
    GenData.generate_gatk_jobs [Examples.exTumorSample] Examples.exGatkRng = [] ∧
    Examples.exTumorSample.sampleType = "Tumor Tissue" := by
  constructor
  · decide
  · rfl

/-- Witness for C3: one tumor and one normal sample of diagnosis 4 in the
scripts pipeline yield exactly one job, whose attached normal sample is the
same-diagnosis "Normal" sample. -/
theorem claim_C3_witness :
    Examples.exSGatkJob.normalSample = some Examples.exSNormal ∧
    ((Scripts.generate_gatk_jobs [Examples.exSTumor, Examples.exSNormal]
        Examples.exSGatkRng).length =
      ([Examples.exSTumor, Examples.exSNormal].filter
        fun s => Scripts.TUMOR_SAMPLE_TYPES.contains s.sampleType).length) ∧
    (Examples.exSNormal ∈ [Examples.exSTumor, Examples.exSNormal] ∧
      Examples.exSNormal.sampleType = "Normal" ∧
      Examples.exSNormal.diagnosisId = Examples.exSGatkJob.tumorSample.diagnosisId) :=
  ⟨rfl,
   (claim_C3 [Examples.exSTumor, Examples.exSNormal] Examples.exSGatkRng [] Examples.exGatkRng).1,
   (claim_C3 [Examples.exSTumor, Examples.exSNormal] Examples.exSGatkRng
      [] Examples.exGatkRng).2.2.1 Examples.exSGatkJob (by decide) Examples.exSNormal rfl⟩

end OncoGen

namespace OncoGen.GenData

theorem generate_random_date_bounds {s e : Int} {r : Nat} {d : Int}
    (h : generate_random_date s e r = some d) : s ≤ d ∧ d < e := by
  unfold generate_random_date at h
  split at h
  · cases h
  · rename_i hlt
    injection h with h
    have h1 : 0 < (e - s).toNat := by omega
    have h2 : (r % (e - s).toNat) < (e - s).toNat := Nat.mod_lt _ h1
    omega

theorem sample_at_some {now : Int} {o : SampleRng} {i j : Nat} {d : DiagnosisRec}
    {cs : CSample} (h : sample_at now o i j d = some cs) :
    cs.diagnosisId = d.diagnosisId ∧ cs.diagnosisDate = d.diagnosisDate ∧
    d.diagnosisDate ≤ cs.collectionDate ∧ cs.collectionDate < now := by
  cases hgen : generate_random_date d.diagnosisDate now (o.date i j) with
  | none => unfold sample_at at h; rw [hgen] at h; cases h
  | some cd =>
    unfold sample_at at h
    rw [hgen] at h
    simp only [Option.map_some'] at h
    injection h with h
    subst h
    obtain ⟨h1, h2⟩ := generate_random_date_bounds hgen
    exact ⟨rfl, rfl, h1, h2⟩

theorem sample_at_zero {now : Int} {o : SampleRng} {i : Nat} {d : DiagnosisRec}
    {cs : CSample} (h : sample_at now o i 0 d = some cs) :
    cs.sampleType = "Tumor Tissue" ∧ 50 ≤ cs.tumorPurity100 ∧ cs.tumorPurity100 ≤ 95 := by
  cases hgen : generate_random_date d.diagnosisDate now (o.date i 0) with
  | none => unfold sample_at at h; rw [hgen] at h; cases h
  | some cd =>
    unfold sample_at at h
    rw [hgen] at h
    simp only [Option.map_some'] at h
    injection h with h
    subst h
    refine ⟨rfl, Nat.le_add_right 50 _, ?_⟩
    show 50 + o.purity i 0 % 46 ≤ 95
    have := Nat.mod_lt (o.purity i 0) (y := 46) (by norm_num)
    omega

theorem sample_at_one {now : Int} {o : SampleRng} {i : Nat} {d : DiagnosisRec}
    {cs : CSample} (h : sample_at now o i 1 d = some cs) :
    cs.sampleType = "Blood" ∧ cs.tumorPurity100 = 0 := by
  cases hgen : generate_random_date d.diagnosisDate now (o.date i 1) with
  | none => unfold sample_at at h; rw [hgen] at h; cases h
  | some cd =>
    unfold sample_at at h
    rw [hgen] at h
    simp only [Option.map_some'] at h
    injection h with h
    subst h
    exact ⟨rfl, rfl⟩

theorem sample_at_blood {now : Int} {o : SampleRng} {i j : Nat} {d : DiagnosisRec}
    {cs : CSample} (h : sample_at now o i j d = some cs)
    (hb : cs.sampleType = "Blood") : cs.tumorPurity100 = 0 := by
  cases hgen : generate_random_date d.diagnosisDate now (o.date i j) with
  | none => unfold sample_at at h; rw [hgen] at h; cases h
  | some cd =>
    unfold sample_at at h
    rw [hgen] at h
    simp only [Option.map_some'] at h
    injection h with h
    subst h
    by_cases hj0 : j = 0
    · subst hj0
      have hb' : "Tumor Tissue" = "Blood" := hb
      exact absurd hb' (by decide)
    · by_cases hj1 : j = 1
      · subst hj1
        rfl
      · simp only [if_neg hj0, if_neg hj1] at hb ⊢
        show (if choiceD SAMPLE_TYPES "Blood" (o.ty i j) ≠ "Blood"
          then o.purity i j % 96 else 0) = 0
        have hb' : choiceD SAMPLE_TYPES "Blood" (o.ty i j) = "Blood" := hb
        simp [hb']

theorem samples_for_diagnosis_get {now : Int} {o : SampleRng} {i : Nat}
    {d : DiagnosisRec} {l : List CSample}
    (h : samples_for_diagnosis now o i d = some l) :
    l.length = randint 1 3 (o.num i) ∧
    ∀ j (hj : j < l.length), sample_at now o i j d = some (l.get ⟨j, hj⟩) := by
  unfold samples_for_diagnosis at h
  obtain ⟨hlen, hget⟩ := optionMapList_length_get h
  rw [List.length_range] at hlen
  refine ⟨hlen.symm, ?_⟩
  intro j hj
  have hj' : j < (List.range (randint 1 3 (o.num i))).length := by
    rw [List.length_range]; omega
  have := hget j hj' hj
  rwa [List.get_eq_getElem, List.getElem_range] at this

theorem mem_samples_for_diagnosis {now : Int} {o : SampleRng} {i : Nat}
    {d : DiagnosisRec} {l : List CSample}
    (h : samples_for_diagnosis now o i d = some l) {s : CSample} (hs : s ∈ l) :
    ∃ j, sample_at now o i j d = some s := by
  unfold samples_for_diagnosis at h
  obtain ⟨j, _, hj⟩ := optionMapList_mem h s hs
  exact ⟨j, hj⟩

theorem generate_samples_cons {now : Int} {o : SampleRng} {i : Nat}
    {d : DiagnosisRec} {ds : List DiagnosisRec} {l : List CSample}
    (h : generate_samples now o i (d :: ds) = some l) :
    ∃ l1 l2, samples_for_diagnosis now o i d = some l1 ∧
      generate_samples now o (i + 1) ds = some l2 ∧ l = l1 ++ l2 := by
  unfold generate_samples at h
  cases h1 : samples_for_diagnosis now o i d with
  | none => rw [h1] at h; cases h
  | some l1 =>
    cases h2 : generate_samples now o (i + 1) ds with
    | none => rw [h1, h2] at h; cases h
    | some l2 =>
      rw [h1, h2] at h
      injection h with h
      exact ⟨l1, l2, rfl, rfl, h.symm⟩

theorem mem_generate_samples {now : Int} {o : SampleRng} :
    ∀ {i : Nat} {ds : List DiagnosisRec} {l : List CSample},
      generate_samples now o i ds = some l →
      ∀ s ∈ l, ∃ i' j d, d ∈ ds ∧ sample_at now o i' j d = some s := by
  intro i ds
  induction ds generalizing i with
  | nil =>
    intro l h s hs
    unfold generate_samples at h
    injection h with h
    subst h
    cases hs
  | cons d ds ih =>
    intro l h s hs
    obtain ⟨l1, l2, h1, h2, rfl⟩ := generate_samples_cons h
    rcases List.mem_append.mp hs with hs | hs
    · obtain ⟨j, hj⟩ := mem_samples_for_diagnosis h1 hs
      exact ⟨i, j, d, List.mem_cons_self d ds, hj⟩
    · obtain ⟨i', j, d', hd', hj⟩ := ih h2 s hs
      exact ⟨i', j, d', List.mem_cons_of_mem d hd', hj⟩

end OncoGen.GenData

namespace OncoGen

theorem randomSample_subset {α : Type _} :
    ∀ (k : Nat) (pop : List α) (r : Nat → Nat) (i : Nat),
      ∀ a ∈ randomSample pop k r i, a ∈ pop := by
  intro k
  induction k with
  | zero => intro pop r i a ha; cases ha
  | succ k ih =>
    intro pop r i a ha
    cases hg : pop.get? (r i % pop.length) with
    | none => simp only [randomSample, hg] at ha; cases ha
    | some a0 =>
      simp only [randomSample, hg] at ha
      rcases List.mem_cons.mp ha with rfl | ha
      · exact List.get?_mem hg
      · exact (List.eraseIdx_sublist pop _).subset (ih _ r (i + 1) a ha)

theorem randomSample_length {α : Type _} :
    ∀ (k : Nat) (pop : List α) (r : Nat → Nat) (i : Nat), k ≤ pop.length →
      (randomSample pop k r i).length = k := by
  intro k
  induction k with
  | zero => intro pop r i _; rfl
  | succ k ih =>
    intro pop r i hk
    have hpos : 0 < pop.length := by omega
    have hidx : r i % pop.length < pop.length := Nat.mod_lt _ hpos
    have hg : pop.get? (r i % pop.length) = some (pop.get ⟨_, hidx⟩) :=
      List.get?_eq_get hidx
    have herase : (pop.eraseIdx (r i % pop.length)).length + 1 = pop.length :=
      List.length_eraseIdx_add_one hidx
    simp only [randomSample, hg, List.length_cons]
    rw [ih _ r (i + 1) (by omega)]

end OncoGen

namespace OncoGen.Scripts

theorem sample_payload_type (o : SSampleRng) (i j : Nat) (d : SDiagnosis) (ty : String) :
    (sample_payload o i j d ty).sampleType = ty := rfl

theorem sample_payload_diag (o : SSampleRng) (i j : Nat) (d : SDiagnosis) (ty : String) :
    (sample_payload o i j d ty).diagnosisId = some d.diagnosisId := rfl

theorem sample_payload_date (o : SSampleRng) (i j : Nat) (d : SDiagnosis) (ty : String) :
    d.diagnosisDate ≤ (sample_payload o i j d ty).collectionDate ∧
    (sample_payload o i j d ty).collectionDate ≤ d.diagnosisDate + 30 := by
  have h1 : randint 0 30 (o.date i j) ≤ 30 := randint_ge 0 30 _ (by norm_num)
  constructor
  · show d.diagnosisDate ≤ d.diagnosisDate + ((randint 0 30 (o.date i j) : Nat) : Int)
    omega
  · show d.diagnosisDate + ((randint 0 30 (o.date i j) : Nat) : Int) ≤ d.diagnosisDate + 30
    omega

theorem sample_payload_purity (o : SSampleRng) (i j : Nat) (d : SDiagnosis) (ty : String) :
    (∃ p, (sample_payload o i j d ty).tumorPurity = some p ∧ 0 < p) ↔
      (ty = "Tumor" ∨ ty = "Metastasis" ∨ ty = "Recurrence") := by
  by_cases ht : ty = "Tumor" ∨ ty = "Metastasis" ∨ ty = "Recurrence"
  · have hp : (sample_payload o i j d ty).tumorPurity =
        some (randint 60 95 (o.purity i j)) := by
      show (if ty = "Tumor" ∨ ty = "Metastasis" ∨ ty = "Recurrence"
        then some (randint 60 95 (o.purity i j)) else none) = _
      rw [if_pos ht]
    simp only [hp, ht, iff_true]
    refine ⟨randint 60 95 (o.purity i j), rfl, ?_⟩
    have := randint_le 60 95 (o.purity i j)
    omega
  · have hp : (sample_payload o i j d ty).tumorPurity = none := by
      show (if ty = "Tumor" ∨ ty = "Metastasis" ∨ ty = "Recurrence"
        then some (randint 60 95 (o.purity i j)) else none) = _
      rw [if_neg ht]
    simp [hp, ht]

theorem samples_from_types_types (o : SSampleRng) (i : Nat) (d : SDiagnosis) :
    ∀ (j : Nat) (tys : List String),
      (samples_from_types o i d j tys).map (fun s => s.sampleType) = tys := by
  intro j tys
  induction tys generalizing j with
  | nil => rfl
  | cons ty tys ih => simp [samples_from_types, sample_payload_type, ih]

theorem mem_samples_from_types {o : SSampleRng} {i : Nat} {d : SDiagnosis} :
    ∀ {j : Nat} {tys : List String} {s : SSample}, s ∈ samples_from_types o i d j tys →
      ∃ j' ty, ty ∈ tys ∧ s = sample_payload o i j' d ty := by
  intro j tys
  induction tys generalizing j with
  | nil => intro s hs; cases hs
  | cons ty tys ih =>
    intro s hs
    rcases List.mem_cons.mp hs with rfl | hs
    · exact ⟨j, ty, List.mem_cons_self ty tys, rfl⟩
    · obtain ⟨j', ty', hty', hs⟩ := ih hs
      exact ⟨j', ty', List.mem_cons_of_mem ty hty', hs⟩

theorem sample_types_for_length (o : SSampleRng) (i : Nat) :
    (sample_types_for o i).length = randint 1 3 (o.num i) := by
  unfold sample_types_for
  have h3 : randint 1 3 (o.num i) ≤ 3 := randint_ge 1 3 _ (by norm_num)
  have h1 : 1 ≤ randint 1 3 (o.num i) := randint_le 1 3 _
  have hrs : (randomSample (SAMPLE_TYPES.drop 1) (randint 1 3 (o.num i) - 1)
      (o.sel i) 0).length = randint 1 3 (o.num i) - 1 := by
    apply randomSample_length
    show randint 1 3 (o.num i) - 1 ≤ (SAMPLE_TYPES.drop 1).length
    have hpop : (SAMPLE_TYPES.drop 1).length = 3 := rfl
    omega
  simp only [List.length_cons, hrs]
  omega

theorem mem_generate_samples_script {o : SSampleRng} :
    ∀ {i : Nat} {ds : List SDiagnosis} {s : SSample}, s ∈ generate_samples o i ds →
      ∃ i' d, d ∈ ds ∧ s ∈ samples_for_diagnosis o i' d := by
  intro i ds
  induction ds generalizing i with
  | nil => intro s hs; cases hs
  | cons d ds ih =>
    intro s hs
    rcases List.mem_append.mp hs with hs | hs
    · exact ⟨i, d, List.mem_cons_self d ds, hs⟩
    · obtain ⟨i', d', hd', hs⟩ := ih hs
      exact ⟨i', d', List.mem_cons_of_mem d hd', hs⟩

end OncoGen.Scripts

namespace OncoGen.Examples

/-- The sample the combined generator produces for `exDiag` (one sample,
all-zero draws, `now = 100`). -/
def exCSampleOut : GenData.CSample :=
  { sampleId := 1, sampleType := "Tumor Tissue", collectionDate := 0
  , tumorPurity100 := 50, qualityScore10 := 50, diagnosisId := 7, diagnosisDate := 0 }

/-- A scripts-pipeline diagnosis with diagnosis date day 0. -/
def exSDiag : Scripts.SDiagnosis := { diagnosisId := 4, diagnosisDate := 0 }

def exSSampleRng : Scripts.SSampleRng :=
  { num := fun _ => 0, sel := fun _ _ => 0, date := fun _ _ => 0, tissue := fun _ _ => 0
  , site := fun _ _ => 0, purity := fun _ _ => 0, sid := fun i j => 10 * i + j + 1 }

/-- Scripts sample oracle drawing two samples and selecting "Metastasis"
(index 1 of `["Normal", "Metastasis", "Recurrence"]`) as the second type. -/
def exSSampleRngMeta : Scripts.SSampleRng :=
  { num := fun _ => 1, sel := fun _ _ => 1, date := fun _ _ => 0, tissue := fun _ _ => 0
  , site := fun _ _ => 0, purity := fun _ _ => 0, sid := fun i j => 10 * i + j + 1 }

end OncoGen.Examples

namespace OncoGen

/-- Claim C4 (amended): in both generators every sample's collection date is
on or after the parent diagnosis's date.  In the scripts generator the
purity rule holds in full: tumor purity is present and strictly positive if
and only if the sample type is tumor-bearing ("Tumor", "Metastasis" or
"Recurrence").  In the combined generator the rule holds for the first
sample (always "Tumor Tissue" with purity at least 0.50) and the second
(always "Blood" with purity 0), and a "Blood" sample always has purity 0;
but for the third sample, whose type is drawn at random, purity is drawn
from `[0, 0.95]` for every non-"Blood" type, so a tumor-bearing third sample
can have purity 0 and a non-tumor-bearing one a positive purity (see the
counterexample). -/
theorem claim_C4 (now : Int) (o : GenData.SampleRng) (i : Nat)
    (ds : List GenData.DiagnosisRec) (l : List GenData.CSample)
    (h : GenData.generate_samples now o i ds = some l)
    (d : GenData.DiagnosisRec) (li : List GenData.CSample)
    (hd : GenData.samples_for_diagnosis now o i d = some li)
    (so : Scripts.SSampleRng) (si : Nat) (sd : Scripts.SDiagnosis)
    (sds : List Scripts.SDiagnosis) :
    (∀ s ∈ l, s.diagnosisDate ≤ s.collectionDate ∧ s.collectionDate < now) ∧
    (∀ hl : 0 < li.length, (li.get ⟨0, hl⟩).sampleType = "Tumor Tissue" ∧
      50 ≤ (li.get ⟨0, hl⟩).tumorPurity100) ∧
    (∀ hl : 1 < li.length, (li.get ⟨1, hl⟩).sampleType = "Blood" ∧
      (li.get ⟨1, hl⟩).tumorPurity100 = 0) ∧
    (∀ s ∈ li, s.sampleType = "Blood" → s.tumorPurity100 = 0) ∧
    (∀ s ∈ Scripts.samples_for_diagnosis so si sd,
      sd.diagnosisDate ≤ s.collectionDate ∧
      ((∃ p, s.tumorPurity = some p ∧ 0 < p) ↔
        (s.sampleType = "Tumor" ∨ s.sampleType = "Metastasis" ∨
          s.sampleType = "Recurrence"))) ∧
    (∀ s ∈ Scripts.generate_samples so si sds, ∃ d' ∈ sds,
      d'.diagnosisDate ≤ s.collectionDate) := by
  refine ⟨?_, ?_, ?_, ?_, ?_, ?_⟩
  · intro s hs
    obtain ⟨i', j, d', _, hat⟩ := GenData.mem_generate_samples h s hs
    obtain ⟨_, hdd, h1, h2⟩ := GenData.sample_at_some hat
    rw [hdd]
    exact ⟨h1, h2⟩
  · intro hl
    obtain ⟨_, hget⟩ := GenData.samples_for_diagnosis_get hd
    obtain ⟨h1, h2, _⟩ := GenData.sample_at_zero (hget 0 hl)
    exact ⟨h1, h2⟩
  · intro hl
    obtain ⟨_, hget⟩ := GenData.samples_for_diagnosis_get hd
    exact GenData.sample_at_one (hget 1 hl)
  · intro s hs hb
    obtain ⟨j, hat⟩ := GenData.mem_samples_for_diagnosis hd hs
    exact GenData.sample_at_blood hat hb
  · intro s hs
    obtain ⟨j', ty, _, rfl⟩ := Scripts.mem_samples_from_types hs
    refine ⟨(Scripts.sample_payload_date so si j' sd ty).1, ?_⟩
    rw [Scripts.sample_payload_type]
    exact Scripts.sample_payload_purity so si j' sd ty
  · intro s hs
    obtain ⟨i', d', hd', hs'⟩ := Scripts.mem_generate_samples_script hs
    obtain ⟨j', ty, _, rfl⟩ := Scripts.mem_samples_from_types hs'
    exact ⟨d', hd', (Scripts.sample_payload_date so i' j' d' ty).1⟩

/-- Counterexample for C4: with three samples drawn for a diagnosis, the
third sample can be of type "Tumor Tissue" (tumor-bearing) with tumor purity
0, so "tumor purity present and strictly positive iff the type is
tumor-bearing" fails for third and later samples. -/
theorem claim_C4_counterexample :
    (GenData.samples_for_diagnosis 100 Examples.exSampleRng3 0 Examples.exDiag).map
      (List.map fun s => (s.sampleType, s.tumorPurity100)) =
      some [("Tumor Tissue", 50), ("Blood", 0), ("Tumor Tissue", 0)] := by
  decide

/-- Witness for C4: the single sample generated for `exDiag` under the
all-zero oracle is collected at or after the diagnosis date and before
`now`, and a concrete scripts sample satisfies the purity rule. -/
theorem claim_C4_witness :
    GenData.generate_samples 100 Examples.exSampleRng 0 [Examples.exDiag] =
      some [Examples.exCSampleOut] ∧
    (∀ s ∈ [Examples.exCSampleOut],
      s.diagnosisDate ≤ s.collectionDate ∧ s.collectionDate < 100) ∧
    (∀ s ∈ Scripts.samples_for_diagnosis Examples.exSSampleRng 0 Examples.exSDiag,
      Examples.exSDiag.diagnosisDate ≤ s.collectionDate ∧
      ((∃ p, s.tumorPurity = some p ∧ 0 < p) ↔
        (s.sampleType = "Tumor" ∨ s.sampleType = "Metastasis" ∨
          s.sampleType = "Recurrence"))) :=
  ⟨by decide,
   (claim_C4 100 Examples.exSampleRng 0 [Examples.exDiag] [Examples.exCSampleOut]
      (by decide) Examples.exDiag [Examples.exCSampleOut] (by decide)
      Examples.exSSampleRng 0 Examples.exSDiag []).1,
   (claim_C4 100 Examples.exSampleRng 0 [Examples.exDiag] [Examples.exCSampleOut]
      (by decide) Examples.exDiag [Examples.exCSampleOut] (by decide)
      Examples.exSSampleRng 0 Examples.exSDiag []).2.2.2.2.1⟩

end OncoGen

namespace OncoGen.Scripts

theorem samples_for_diagnosis_length (o : SSampleRng) (i : Nat) (d : SDiagnosis) :
    (samples_for_diagnosis o i d).length = randint 1 3 (o.num i) := by
  have hmap := samples_from_types_types o i d 0 (sample_types_for o i)
  have := congrArg List.length hmap
  rw [List.length_map] at this
  rw [samples_for_diagnosis, this, sample_types_for_length]

theorem samples_for_diagnosis_type_get (o : SSampleRng) (i : Nat) (d : SDiagnosis)
    (k : Nat) (hk : k < (samples_for_diagnosis o i d).length)
    (hk' : k < (sample_types_for o i).length) :
    ((samples_for_diagnosis o i d).get ⟨k, hk⟩).sampleType =
      (sample_types_for o i).get ⟨k, hk'⟩ := by
  have hmap : (samples_for_diagnosis o i d).map (fun s => s.sampleType) =
      sample_types_for o i :=
    samples_from_types_types o i d 0 (sample_types_for o i)
  have h1 : ((samples_for_diagnosis o i d).map (fun s => s.sampleType)).get? k =
      some (((samples_for_diagnosis o i d).get ⟨k, hk⟩).sampleType) := by
    rw [List.get?_map, List.get?_eq_get hk]
    rfl
  have h2 : (sample_types_for o i).get? k =
      some ((sample_types_for o i).get ⟨k, hk'⟩) := List.get?_eq_get hk'
  rw [hmap] at h1
  exact Option.some.inj (h1.symm.trans h2)

end OncoGen.Scripts

namespace OncoGen

/-- Claim C6 (amended): in both generators each diagnosis yields between 1
and 3 samples, and the first is always tumor tissue ("Tumor Tissue" in the
combined generator, "Tumor" in the scripts generator).  The second sample,
when present, is always "Blood" (the normal type) in the combined generator;
in the scripts generator, however, it is drawn without replacement from
`["Normal", "Metastasis", "Recurrence"]`, so it is one of those three types
but not necessarily a normal sample (see the counterexample). -/
theorem claim_C6 (now : Int) (o : GenData.SampleRng) (i : Nat)
    (d : GenData.DiagnosisRec) (li : List GenData.CSample)
    (hd : GenData.samples_for_diagnosis now o i d = some li)
    (so : Scripts.SSampleRng) (si : Nat) (sd : Scripts.SDiagnosis) :
    (1 ≤ li.length ∧ li.length ≤ 3) ∧
    (∀ hl : 0 < li.length, (li.get ⟨0, hl⟩).sampleType = "Tumor Tissue") ∧
    (∀ hl : 1 < li.length, (li.get ⟨1, hl⟩).sampleType = "Blood") ∧
    (1 ≤ (Scripts.samples_for_diagnosis so si sd).length ∧
      (Scripts.samples_for_diagnosis so si sd).length ≤ 3) ∧
    (∀ hl : 0 < (Scripts.samples_for_diagnosis so si sd).length,
      ((Scripts.samples_for_diagnosis so si sd).get ⟨0, hl⟩).sampleType = "Tumor") ∧
    (∀ hl : 1 < (Scripts.samples_for_diagnosis so si sd).length,
      ((Scripts.samples_for_diagnosis so si sd).get ⟨1, hl⟩).sampleType ∈
        (["Normal", "Metastasis", "Recurrence"] : List String)) := by
  obtain ⟨hlen, hget⟩ := GenData.samples_for_diagnosis_get hd
  have hr1 : 1 ≤ randint 1 3 (o.num i) := randint_le 1 3 _
  have hr3 : randint 1 3 (o.num i) ≤ 3 := randint_ge 1 3 _ (by norm_num)
  have hslen : (Scripts.samples_for_diagnosis so si sd).length =
      randint 1 3 (so.num si) := Scripts.samples_for_diagnosis_length so si sd
  have hsr1 : 1 ≤ randint 1 3 (so.num si) := randint_le 1 3 _
  have hsr3 : randint 1 3 (so.num si) ≤ 3 := randint_ge 1 3 _ (by norm_num)
  refine ⟨⟨by omega, by omega⟩, ?_, ?_, ⟨by omega, by omega⟩, ?_, ?_⟩
  · intro hl
    exact (GenData.sample_at_zero (hget 0 hl)).1
  · intro hl
    exact (GenData.sample_at_one (hget 1 hl)).1
  · intro hl
    have hl' : 0 < (Scripts.sample_types_for so si).length := by
      rw [Scripts.sample_types_for_length]; omega
    rw [Scripts.samples_for_diagnosis_type_get so si sd 0 hl hl']
    rfl
  · intro hl
    have hl' : 1 < (Scripts.sample_types_for so si).length := by
      rw [Scripts.sample_types_for_length, ← hslen]; exact hl
    rw [Scripts.samples_for_diagnosis_type_get so si sd 1 hl hl']
    have h0 : 0 < (randomSample (Scripts.SAMPLE_TYPES.drop 1)
        (randint 1 3 (so.num si) - 1) (so.sel si) 0).length := by
      have hlen' : (Scripts.sample_types_for so si).length =
          (randomSample (Scripts.SAMPLE_TYPES.drop 1)
            (randint 1 3 (so.num si) - 1) (so.sel si) 0).length + 1 := by
        simp [Scripts.sample_types_for]
      omega
    have heq : (Scripts.sample_types_for so si).get ⟨1, hl'⟩ =
        (randomSample (Scripts.SAMPLE_TYPES.drop 1) (randint 1 3 (so.num si) - 1)
          (so.sel si) 0).get ⟨0, h0⟩ := rfl
    rw [heq]
    exact randomSample_subset _ _ _ _ _ (List.get_mem _ _ _)

end OncoGen

namespace OncoGen

/-- Counterexample for C6: in the scripts generator, a two-sample diagnosis
can draw "Metastasis" as the second sample's type, so the second sample is
not always a normal-type sample. -/
theorem claim_C6_counterexample :
    (Scripts.samples_for_diagnosis Examples.exSSampleRngMeta 0 Examples.exSDiag).map
      (fun s => s.sampleType) = ["Tumor", "Metastasis"] ∧
    ("Metastasis" : String) ≠ "Normal" := by
  constructor
  · decide
  · decide

/-- Witness for C6: the single-sample diagnosis generated under the all-zero
oracle has between 1 and 3 samples and its first sample is tumor tissue, in
both generators. -/
theorem claim_C6_witness :
    GenData.samples_for_diagnosis 100 Examples.exSampleRng 0 Examples.exDiag =
      some [Examples.exCSampleOut] ∧
    (1 ≤ ([Examples.exCSampleOut] : List GenData.CSample).length ∧
      ([Examples.exCSampleOut] : List GenData.CSample).length ≤ 3) ∧
    (1 ≤ (Scripts.samples_for_diagnosis Examples.exSSampleRng 0 Examples.exSDiag).length ∧
      (Scripts.samples_for_diagnosis Examples.exSSampleRng 0 Examples.exSDiag).length ≤ 3) :=
  ⟨by decide,
   (claim_C6 100 Examples.exSampleRng 0 Examples.exDiag [Examples.exCSampleOut]
      (by decide) Examples.exSSampleRng 0 Examples.exSDiag).1,
   (claim_C6 100 Examples.exSampleRng 0 Examples.exDiag [Examples.exCSampleOut]
      (by decide) Examples.exSSampleRng 0 Examples.exSDiag).2.2.2.1⟩

end OncoGen

namespace OncoGen.GenData

theorem build_followup_dates_ge {now : Int} {inc : Nat → Nat} :
    ∀ (fuel idx : Nat) (c : Int), ∀ x ∈ build_followup_dates now inc fuel idx c, c ≤ x := by
  intro fuel
  induction fuel with
  | zero => intro idx c x hx; cases hx
  | succ fuel ih =>
    intro idx c x hx
    unfold build_followup_dates at hx
    by_cases hc : c < now
    · rw [if_pos hc] at hx
      rcases List.mem_cons.mp hx with rfl | hx
      · exact le_refl x
      · have h1 := ih (idx + 1) (c + (randint 60 120 (inc idx) : Nat)) x hx
        have h60 : 60 ≤ randint 60 120 (inc idx) := randint_le 60 120 _
        omega
    · rw [if_neg hc] at hx
      cases hx

theorem build_followup_dates_pairwise {now : Int} {inc : Nat → Nat} :
    ∀ (fuel idx : Nat) (c : Int),
      List.Pairwise (· < ·) (build_followup_dates now inc fuel idx c) := by
  intro fuel
  induction fuel with
  | zero => intro idx c; exact List.Pairwise.nil
  | succ fuel ih =>
    intro idx c
    unfold build_followup_dates
    by_cases hc : c < now
    · rw [if_pos hc]
      refine List.Pairwise.cons ?_ (ih (idx + 1) _)
      intro x hx
      have h1 := build_followup_dates_ge fuel (idx + 1)
        (c + (randint 60 120 (inc idx) : Nat)) x hx
      have h60 : 60 ≤ randint 60 120 (inc idx) := randint_le 60 120 _
      omega
    · rw [if_neg hc]
      exact List.Pairwise.nil

theorem followup_records_map_date (o : FollowupRng) (pid total : Nat) :
    ∀ (i : Nat) (ds : List Int),
      (followup_records o pid total i ds).map (fun r => r.followUpDate) = ds := by
  intro i ds
  induction ds generalizing i with
  | nil => rfl
  | cons d ds ih => simp [followup_records, ih]

theorem mem_followup_records {o : FollowupRng} {pid total : Nat} :
    ∀ {i : Nat} {ds : List Int} {r : FollowupRec}, r ∈ followup_records o pid total i ds →
      r.patientId = pid ∧ r.followUpDate < r.nextFollowUpDate ∧
      r.nextFollowUpDate ≤ r.followUpDate + 120 := by
  intro i ds
  induction ds generalizing i with
  | nil => intro r hr; cases hr
  | cons d ds ih =>
    intro r hr
    rcases List.mem_cons.mp hr with rfl | hr
    · refine ⟨rfl, ?_, ?_⟩
      · show d < d + (randint 60 120 (o.next pid i) : Nat)
        have h60 : 60 ≤ randint 60 120 (o.next pid i) := randint_le 60 120 _
        omega
      · show d + (randint 60 120 (o.next pid i) : Nat) ≤ d + 120
        have h120 : randint 60 120 (o.next pid i) ≤ 120 :=
          randint_ge 60 120 _ (by norm_num)
        omega
    · exact ih hr

theorem mem_followups_for_patient {now : Int} {o : FollowupRng} {recs : List TherapyRec}
    {pid : Nat} {r : FollowupRec} (h : r ∈ followups_for_patient now o recs pid) :
    r.patientId = pid ∧ r.followUpDate < r.nextFollowUpDate ∧
    r.nextFollowUpDate ≤ r.followUpDate + 120 := by
  unfold followups_for_patient at h
  rcases hf : recs.filter (fun x => decide (x.patientId = pid)) with _ | ⟨r0, rs⟩
  · rw [hf] at h
    cases h
  · rw [hf] at h
    exact mem_followup_records h

theorem followup_records_pairwise (o : FollowupRng) (pid total : Nat) :
    ∀ (i : Nat) (ds : List Int), List.Pairwise (· < ·) ds →
      List.Pairwise (fun a b => a.followUpDate < b.followUpDate)
        (followup_records o pid total i ds) := by
  intro i ds
  induction ds generalizing i with
  | nil => intro _; exact List.Pairwise.nil
  | cons d ds ih =>
    intro hp
    obtain ⟨hhead, htail⟩ := List.pairwise_cons.mp hp
    refine List.Pairwise.cons ?_ (ih (i + 1) htail)
    intro r hr
    have hrd : r.followUpDate ∈ ds := by
      have hmap := followup_records_map_date o pid total (i + 1) ds
      rw [← hmap]
      exact List.mem_map.mpr ⟨r, hr, rfl⟩
    exact hhead _ hrd

theorem followups_for_patient_pairwise (now : Int) (o : FollowupRng)
    (recs : List TherapyRec) (pid : Nat) :
    List.Pairwise (fun a b => a.followUpDate < b.followUpDate)
      (followups_for_patient now o recs pid) := by
  unfold followups_for_patient
  rcases hf : recs.filter (fun x => decide (x.patientId = pid)) with _ | ⟨r0, rs⟩
  · rw [hf]
    exact List.Pairwise.nil
  · rw [hf]
    exact followup_records_pairwise o pid _ 0 _ (build_followup_dates_pairwise _ _ _)

theorem generate_followups_filter (recs : List TherapyRec) (now : Int) (o : FollowupRng)
    (pid : Nat) :
    (generate_followups recs now o).filter (fun r => decide (r.patientId = pid)) =
      if pid ∈ first_occurrence_keys (recs.map (fun r => r.patientId)) then
        followups_for_patient now o recs pid
      else [] := by
  unfold generate_followups
  exact filter_flatten_groups (fun r => r.patientId)
    (first_occurrence_keys (recs.map (fun r => r.patientId)))
    (followups_for_patient now o recs)
    (nodup_first_occurrence_keys _)
    (fun k' b hb => (mem_followups_for_patient hb).1) pid

theorem mem_generate_followups {recs : List TherapyRec} {now : Int} {o : FollowupRng}
    {r : FollowupRec} (h : r ∈ generate_followups recs now o) :
    ∃ pid, r ∈ followups_for_patient now o recs pid := by
  unfold generate_followups at h
  obtain ⟨l, hl, hrl⟩ := List.mem_flatten.mp h
  obtain ⟨pid, _, rfl⟩ := List.mem_map.mp hl
  exact ⟨pid, hrl⟩

end OncoGen.GenData

namespace OncoGen

/-- Claim C5 (amended): for every patient, the generated follow-up dates are
strictly increasing, and every record's next-follow-up date is strictly later
than its own follow-up date (by 60 to 120 days).  The next-follow-up offset
is, however, drawn independently of the offset that produced the following
record's follow-up date, so the next-follow-up date may fall after the
following record's follow-up date (see the counterexample). -/
theorem claim_C5 (recs : List GenData.TherapyRec) (now : Int) (o : GenData.FollowupRng)
    (pid : Nat) :
    List.Pairwise (fun a b => a.followUpDate < b.followUpDate)
      ((GenData.generate_followups recs now o).filter
        (fun r => decide (r.patientId = pid))) ∧
    (∀ r ∈ GenData.generate_followups recs now o,
      r.followUpDate < r.nextFollowUpDate ∧
        r.nextFollowUpDate ≤ r.followUpDate + 120) := by
  constructor
  · rw [GenData.generate_followups_filter]
    split
    · exact GenData.followups_for_patient_pairwise now o recs pid
    · exact List.Pairwise.nil
  · intro r hr
    obtain ⟨pid', hmem⟩ := GenData.mem_generate_followups hr
    exact (GenData.mem_followups_for_patient hmem).2

end OncoGen

namespace OncoGen.Examples

/-- The first follow-up record generated for `exRec` under `exFollowupRng`
with `now = 1000`. -/
def exFollowupOut : GenData.FollowupRec :=
  { patientId := 5, followUpDate := 30, clinicalStatus := "Partial Response"
  , imagingResults := "30% reduction in tumor size compared to baseline."
  , adverseEvents := "None", nextFollowUpDate := 150 }

end OncoGen.Examples

namespace OncoGen

/-- Counterexample for C5: with one recommendation dated day 0, the loop
offsets can draw 60 days between consecutive follow-ups while the first
record's next-follow-up offset draws 120 days, producing follow-up dates 30
and 90 with a first next-follow-up date of 150, which is later than the
following record's follow-up date 90. -/
theorem claim_C5_counterexample :
    (GenData.generate_followups [Examples.exRec] 1000 Examples.exFollowupRng).map
      (fun r => (r.followUpDate, r.nextFollowUpDate)) = [(30, 150), (90, 150)] ∧
    ¬((150 : Int) ≤ 90) := by
  constructor
  · decide
  · decide

/-- Witness for C5: the concrete two-record sequence for patient 5 has
strictly increasing follow-up dates, and its first record's next-follow-up
date is strictly later than its own date. -/
theorem claim_C5_witness :
    List.Pairwise (fun a b => a.followUpDate < b.followUpDate)
      ((GenData.generate_followups [Examples.exRec] 1000 Examples.exFollowupRng).filter
        (fun r => decide (r.patientId = 5))) ∧
    Examples.exFollowupOut ∈
      GenData.generate_followups [Examples.exRec] 1000 Examples.exFollowupRng ∧
    Examples.exFollowupOut.followUpDate < Examples.exFollowupOut.nextFollowUpDate :=
  ⟨(claim_C5 [Examples.exRec] 1000 Examples.exFollowupRng 5).1,
   by decide,
   ((claim_C5 [Examples.exRec] 1000 Examples.exFollowupRng 5).2
      Examples.exFollowupOut (by decide)).1⟩

end OncoGen

namespace OncoGen.GenData

theorem generate_random_date_isSome {s e : Int} (h : s < e) (r : Nat) :
    ∃ d, generate_random_date s e r = some d := by
  unfold generate_random_date
  rw [if_neg (by omega)]
  exact ⟨_, rfl⟩

theorem matching_drugs_eq_nil {group : List VariantRec} {drugs : List Drug}
    (h : ∀ v ∈ group, ∀ dr ∈ drugs, strIn v.geneSymbol dr.gene = false) :
    matching_drugs group drugs = [] := by
  unfold matching_drugs
  induction group with
  | nil => rfl
  | cons v vs ih =>
    simp only [List.map_cons, List.flatten_cons]
    rw [List.filter_eq_nil_iff.mpr, List.nil_append]
    · exact ih fun v' hv' => h v' (List.mem_cons_of_mem v hv')
    · intro dr hdr
      simp [h v (List.mem_cons_self v vs) dr hdr]

theorem recs_from_drugs_mem {now : Int} {o : TherapyRng} {k : Nat × Nat}
    {diagnosis : DiagnosisRec} {pv : List VariantRec} {fb : Bool} :
    ∀ {j : Nat} {drugs : List Drug} {l : List TherapyRec},
      recs_from_drugs now o k diagnosis pv fb j drugs = some l →
      ∀ rec ∈ l, rec.patientId = k.1 ∧ rec.diagnosisId = k.2 ∧ rec.isFallback = fb ∧
        rec.linkedVariants = pv.filter (fun v => strIn v.geneSymbol rec.drug.gene) := by
  intro j drugs
  induction drugs generalizing j with
  | nil =>
    intro l h rec hrec
    unfold recs_from_drugs at h
    injection h with h
    subst h
    cases hrec
  | cons drug rest ih =>
    intro l h rec hrec
    unfold recs_from_drugs at h
    cases hgen : generate_random_date diagnosis.diagnosisDate now (o.date k j) with
    | none => rw [hgen] at h; cases h
    | some rd =>
      cases hrest : recs_from_drugs now o k diagnosis pv fb (j + 1) rest with
      | none => rw [hgen, hrest] at h; cases h
      | some tail =>
        rw [hgen, hrest] at h
        injection h with h
        subst h
        rcases List.mem_cons.mp hrec with rfl | hrec
        · exact ⟨rfl, rfl, rfl, rfl⟩
        · exact ih hrest rec hrec

theorem recs_for_group_facts {diagnoses : List DiagnosisRec} {now : Int} {o : TherapyRng}
    {variants : List VariantRec} {k : Nat × Nat} {l : List TherapyRec}
    (h : recs_for_group diagnoses now o variants k = some l) :
    ∀ rec ∈ l, rec.patientId = k.1 ∧ rec.diagnosisId = k.2 ∧
      rec.linkedVariants = (variants.filter fun v => decide (variant_key v = k)).filter
        (fun v => strIn v.geneSymbol rec.drug.gene) := by
  unfold recs_for_group at h
  cases hfind : diagnoses.find? (fun d => d.diagnosisId == k.2) with
  | none =>
    rw [hfind] at h
    injection h with h
    subst h
    intro rec hrec
    cases hrec
  | some diag =>
    simp only [hfind] at h
    by_cases hIE : (DRUGS_get diag.cancerType.name).isEmpty
    · rw [if_pos hIE] at h
      injection h with h
      subst h
      intro rec hrec
      cases hrec
    · rw [if_neg hIE] at h
      intro rec hrec
      obtain ⟨h1, h2, _, h4⟩ := recs_from_drugs_mem h rec hrec
      exact ⟨h1, h2, h4⟩

/-- The fallback computation of one no-match group, in closed form. -/
theorem recs_for_group_fallback {diagnoses : List DiagnosisRec} {now : Int}
    {o : TherapyRng} {variants : List VariantRec} {k : Nat × Nat} {diag : DiagnosisRec}
    (hfind : diagnoses.find? (fun d => d.diagnosisId == k.2) = some diag)
    (hdrugs : DRUGS_get diag.cancerType.name ≠ [])
    (hmatched : matching_drugs (variants.filter fun v => decide (variant_key v = k))
      (DRUGS_get diag.cancerType.name) = [])
    {rd : Int} (hrd : generate_random_date diag.diagnosisDate now (o.date k 0) = some rd) :
    recs_for_group diagnoses now o variants k = some
      [{ patientId := k.1
       , diagnosisId := k.2
       , drug := choiceD (DRUGS_get diag.cancerType.name) ⟨"", "", ""⟩ (o.fallback k)
       , recommendationDate := rd
       , evidenceLevel := choiceD EVIDENCE_LEVELS "" (o.level k 0)
       , linkedVariants := (variants.filter fun v => decide (variant_key v = k)).filter
           (fun v => strIn v.geneSymbol
             (choiceD (DRUGS_get diag.cancerType.name) ⟨"", "", ""⟩ (o.fallback k)).gene)
       , isFallback := true }] := by
  have hIE : (DRUGS_get diag.cancerType.name).isEmpty = false := by
    cases hD : DRUGS_get diag.cancerType.name with
    | nil => exact absurd hD hdrugs
    | cons a as => rfl
  unfold recs_for_group
  simp only [hfind, hIE, Bool.false_eq_true, if_false, hmatched, List.isEmpty_nil, if_true]
  unfold recs_from_drugs
  rw [hrd]
  rfl

theorem mem_therapy_keys {variants : List VariantRec} {k : Nat × Nat} :
    k ∈ first_occurrence_keys (variants.map variant_key) ↔
      ∃ v ∈ variants, variant_key v = k := by
  rw [mem_first_occurrence_keys]
  constructor
  · intro h
    obtain ⟨v, hv, hk⟩ := List.mem_map.mp h
    exact ⟨v, hv, hk⟩
  · intro ⟨v, hv, hk⟩
    exact List.mem_map.mpr ⟨v, hv, hk⟩

end OncoGen.GenData

namespace OncoGen.Examples

/-- The fallback recommendation produced for `exDiag`'s TP53-only variant
group under the all-zero oracle with `now = 100`. -/
def exTherapyOut : GenData.TherapyRec :=
  { patientId := 3, diagnosisId := 7
  , drug := ⟨"Olaparib", "300mg twice daily", "BRCA1/2"⟩
  , recommendationDate := 0, evidenceLevel := "Level 1A"
  , linkedVariants := [], isFallback := true }

end OncoGen.Examples

namespace OncoGen

/-- Claim C1: every therapy recommendation links exactly the group's variants
whose gene symbol occurs in the recommended drug's target-gene field, so for
every recommendation each referenced variant's gene appears in that field
(this holds for matched and fallback recommendations alike); and a
patient-diagnosis group that has variants but no gene match for any drug of
its cancer type receives exactly one recommendation, produced by the
no-match fallback. -/
theorem claim_C1 (variants : List GenData.VariantRec)
    (diagnoses : List GenData.DiagnosisRec) (now : Int) (o : GenData.TherapyRng)
    (recs : List GenData.TherapyRec)
    (h : GenData.generate_therapy_recommendations diagnoses now o variants = some recs)
    (k : Nat × Nat) (v0 : GenData.VariantRec) (hv0 : v0 ∈ variants)
    (hkey : GenData.variant_key v0 = k) (diag : GenData.DiagnosisRec)
    (hfind : diagnoses.find? (fun d => d.diagnosisId == k.2) = some diag)
    (hdrugs : DRUGS_get diag.cancerType.name ≠ [])
    (hdate : diag.diagnosisDate < now)
    (hnomatch : ∀ v ∈ variants, GenData.variant_key v = k →
      ∀ dr ∈ DRUGS_get diag.cancerType.name,
        strIn v.geneSymbol dr.gene = false) :
    (∀ rec ∈ recs, ∀ v ∈ rec.linkedVariants, strIn v.geneSymbol rec.drug.gene = true) ∧
    (∃ rec, recs.filter (fun r => decide ((r.patientId, r.diagnosisId) = k)) = [rec] ∧
      rec.isFallback = true) := by
  unfold GenData.generate_therapy_recommendations at h
  obtain ⟨ls, hls, hflat⟩ := Option.map_eq_some'.mp h
  subst hflat
  constructor
  · intro rec hrec v hv
    obtain ⟨l, hl, hrl⟩ := List.mem_flatten.mp hrec
    obtain ⟨k', hk', hfk'⟩ := optionMapList_mem hls l hl
    obtain ⟨_, _, hlink⟩ := GenData.recs_for_group_facts hfk' rec hrl
    rw [hlink] at hv
    exact (List.mem_filter.mp hv).2
  · have hpv : ∀ v ∈ variants.filter (fun v => decide (GenData.variant_key v = k)),
        ∀ dr ∈ DRUGS_get diag.cancerType.name,
          strIn v.geneSymbol dr.gene = false := by
      intro v hv dr hdr
      have hm := List.mem_filter.mp hv
      exact hnomatch v hm.1 (by simpa using hm.2) dr hdr
    have hmatched := GenData.matching_drugs_eq_nil hpv
    obtain ⟨rd, hrd⟩ := GenData.generate_random_date_isSome hdate (o.date k 0)
    have hfg := GenData.recs_for_group_fallback hfind hdrugs hmatched hrd
    have hkmem : k ∈ GenData.first_occurrence_keys (variants.map GenData.variant_key) :=
      GenData.mem_therapy_keys.mpr ⟨v0, hv0, hkey⟩
    have hkeyof : ∀ (k' : Nat × Nat) l',
        GenData.recs_for_group diagnoses now o variants k' = some l' →
        ∀ b ∈ l', (b.patientId, b.diagnosisId) = k' := by
      intro k' l' hfl' b hb
      obtain ⟨h1, h2, _⟩ := GenData.recs_for_group_facts hfl' b hb
      exact Prod.ext h1 h2
    exact ⟨_, GenData.filter_flatten_optionMapList (fun r => (r.patientId, r.diagnosisId))
      hls (GenData.nodup_first_occurrence_keys _) hkeyof hfg hkmem, rfl⟩

/-- Witness for C1: the TP53-only breast-cancer group yields exactly one
recommendation, produced by the fallback. -/
theorem claim_C1_witness :
    GenData.generate_therapy_recommendations [Examples.exDiag] 100 Examples.exTherapyRng
      [Examples.exVariant] = some [Examples.exTherapyOut] ∧
    (∃ rec, ([Examples.exTherapyOut].filter
        (fun r => decide ((r.patientId, r.diagnosisId) = ((3, 7) : Nat × Nat)))) = [rec] ∧
      rec.isFallback = true) :=
  ⟨by decide,
   (claim_C1 [Examples.exVariant] [Examples.exDiag] 100 Examples.exTherapyRng
      [Examples.exTherapyOut] (by decide) (3, 7) Examples.exVariant (by decide)
      (by decide) Examples.exDiag (by decide) (by decide) (by decide) (by decide)).2⟩

end OncoGen
